import Mathlib

/-!
Shallow embedding of `cameractrls.py` (camera control discovery and
manipulation for v4l2 devices) and verification of its specification.

The device, the filesystem and the driver are external collaborators; they
are modelled as explicit oracle parameters:

* the sysfs descriptor file is an `Option (List Nat)` (`none` = absent or
  unreadable, `some d` = its byte content);
* the two usb id files are a `FileState` each (missing / unreadable /
  readable content);
* the v4l2 driver control registry is a list of `QCtrlRec` records (the
  successive successful `VIDIOC_QUERYCTRL` answers) plus per-control
  `VIDIOC_G_CTRL` and `VIDIOC_QUERYMENU` answers stored in the record;
* the extension-unit register protocol of the Logitech source is a register
  byte frame (`reg`) plus a transition function `applyF old written`
  giving the register content after a `SET_CUR` of `written`;
* the `VIDIOC_S_CTRL` echo of the driver is `echo id value : Option Int`
  (`none` = the ioctl raised).

Machine integers are modelled as `Nat` / `Int` with explicit wrapping where
the ctypes structures truncate (`wrap32`, `Int.emod` for `c_uint32`).
Python dynamic values (a control value is an `int` or a `str`) are the
`PyVal` sum; Python exceptions escaping a function are `Option.none`.
-/

/-- Python dynamic value held in a control's `value` / `default` slot:
either an `int` or a `str`. -/
inductive PyVal where
  | int (n : Int)
  | str (s : String)
  deriving DecidableEq, Repr

/-- Python `str()` of a control value as used by `print_ctrls` f-strings. -/
def pyStr : PyVal → String
  | .int n => toString n
  | .str s => s

/-- Python `str()` of an optional value (`None` prints as `"None"`). -/
def pyStrOpt : Option PyVal → String
  | none => "None"
  | some v => pyStr v

/-- Python whitespace characters stripped by `str.strip()`. -/
def isPySpace (c : Char) : Bool :=
  c = ' ' || c = '\t' || c = '\n' || c = '\r' || c = '\x0b' || c = '\x0c'

/-- Python `str.strip()`. -/
def pyStrip (s : String) : String :=
  String.mk (((s.toList.dropWhile isPySpace).reverse.dropWhile isPySpace).reverse)

/-- Decimal digit run to a number; `none` when a non-digit appears or the
run is empty (Python `int()` raises `ValueError`). -/
def digitsToNat : List Char → Option Nat
  | [] => none
  | l =>
    l.foldl (fun acc c =>
      match acc with
      | none => none
      | some n => if c.isDigit then some (n * 10 + (c.toNat - 48)) else none)
      (some 0)

/-- Python `int(str)`: strip, optional sign, decimal digits; `none` models
the `ValueError` it raises on anything else. -/
def pyParseInt (s : String) : Option Int :=
  match (pyStrip s).toList with
  | '-' :: rest => (digitsToNat rest).map (fun n => -(n : Int))
  | '+' :: rest => (digitsToNat rest).map (fun n => (n : Int))
  | l => (digitsToNat l).map (fun n => (n : Int))

/-- Python `bool(str)`: every non-empty string is truthy. -/
def pyBool (s : String) : Bool := s ≠ ""

/-- ctypes `c_int32` truncation of a Python int. -/
def wrap32 (n : Int) : Int := (n + 2 ^ 31) % 2 ^ 32 - 2 ^ 31

/-- `bytes.find` worker: first index at which `needle` is a prefix. -/
def bytesFindGo (needle : List Nat) : List Nat → Nat → Option Nat
  | [], i => if needle.isEmpty then some i else none
  | h :: t, i =>
    if needle.isPrefixOf (h :: t) then some i else bytesFindGo needle t (i + 1)

/-- Python `bytes.find`: offset of the first occurrence of `needle` in
`hay` (`none` models the `-1` result). -/
def bytesFind (hay needle : List Nat) : Option Nat := bytesFindGo needle hay 0

/-- Python `bytes` indexing with an `Int` index: a negative index wraps to
the end of the sequence (out-of-range reads default to 0, unused here). -/
def pyByteAt (d : List Nat) (i : Int) : Nat :=
  if i < 0 then d.getD (d.length + i).toNat 0 else d.getD i.toNat 0

/-- `find_unit_id_in_sysfs` of the source: scan the descriptor blob for the
16-byte guid and return the byte right before it; `desc = none` models the
descriptor file being absent or unreadable (`isfile` false or `open`/`read`
raising), in which case the function returns 0; it also returns 0 when the
guid is absent or found at offset 0 (Python `find` result `> 0` guard). -/
def find_unit_id_in_sysfs (desc : Option (List Nat)) (guid : List Nat) : Nat :=
  match desc with
  | none => 0
  | some d =>
    match bytesFind d guid with
    | none => 0
    | some k => if 0 < k then pyByteAt d ((k : Int) - 1) else 0

/-- State of a sysfs file as the source observes it: missing (`isfile`
false), present but raising on read, or readable content. -/
inductive FileState where
  | missing
  | unreadable
  | content (s : String)
  deriving DecidableEq, Repr

/-- `read_usb_id_from_file` of the source: the stripped file content, or
the empty string when reading raises (logged as a warning). -/
def read_usb_id_from_file : FileState → String
  | .content s => pyStrip s
  | _ => ""

/-- `find_usb_ids_in_sysfs` of the source: empty string when either id file
is missing, otherwise the two (possibly empty) ids joined with a colon. -/
def find_usb_ids_in_sysfs (vendor product : FileState) : String :=
  if vendor = FileState.missing ∨ product = FileState.missing then ""
  else read_usb_id_from_file vendor ++ ":" ++ read_usb_id_from_file product

-- Facts about `bytesFind` needed for the descriptor-scanner claims.

theorem bytesFindGo_some_le (needle : List Nat) :
    ∀ (hay : List Nat) (i k : Nat), bytesFindGo needle hay i = some k →
      i ≤ k ∧ k + needle.length ≤ i + hay.length := by
  intro hay
  induction hay with
  | nil =>
    intro i k h
    by_cases he : needle.isEmpty
    · simp [bytesFindGo, he] at h
      subst h
      simp [List.isEmpty_iff.mp he]
    · simp [bytesFindGo, he] at h
  | cons x t ih =>
    intro i k h
    by_cases hp : needle.isPrefixOf (x :: t)
    · simp [bytesFindGo, hp] at h
      subst h
      have hlen : needle.length ≤ (x :: t).length :=
        List.IsPrefix.length_le (List.isPrefixOf_iff_prefix.mp hp)
      exact ⟨Nat.le_refl i, by omega⟩
    · simp [bytesFindGo, hp] at h
      have := ih (i + 1) k h
      have hl : (x :: t).length = t.length + 1 := by simp
      constructor
      · exact Nat.le_trans (Nat.le_succ i) this.1
      · omega

/-- If `bytesFind` locates `needle` at `k`, the whole needle fits in the
haystack starting there. -/
theorem bytesFind_some_bound (hay needle : List Nat) (k : Nat)
    (h : bytesFind hay needle = some k) : k + needle.length ≤ hay.length := by
  have := bytesFindGo_some_le needle hay 0 k h
  omega

/-- Claim C8: `find_unit_id_in_sysfs` returns 0 when the descriptor file is
absent or unreadable, returns 0 when the blob does not contain the guid,
and returns the byte at offset `k - 1` when the guid is found at an offset
`k > 0` (the offset of the first occurrence, which is what `bytes.find`
reports). -/
theorem c8_find_unit_id_spec (desc : Option (List Nat)) (guid : List Nat) :
    (desc = none → find_unit_id_in_sysfs desc guid = 0)
    ∧ (∀ d, desc = some d → bytesFind d guid = none →
        find_unit_id_in_sysfs desc guid = 0)
    ∧ (∀ d k, desc = some d → bytesFind d guid = some k → 0 < k →
        find_unit_id_in_sysfs desc guid = d.getD (k - 1) 0 ∧ k - 1 < d.length) := by
  refine ⟨fun h => by simp [h, find_unit_id_in_sysfs], fun d hd hf => ?_, fun d k hd hf hk => ?_⟩
  · simp [hd, find_unit_id_in_sysfs, hf]
  · have hbound := bytesFind_some_bound d guid k hf
    have hk1 : ¬ ((k : Int) - 1 < 0) := by omega
    have htn : ((k : Int) - 1).toNat = k - 1 := by omega
    constructor
    · simp [hd, find_unit_id_in_sysfs, hf, hk, pyByteAt, hk1, htn]
    · omega

/-- Claim C8 witness: a 16-byte guid located at offset 2 of a concrete
blob; the unit id is the byte 0x0b right before it. -/
theorem c8_find_unit_id_spec_witness :
    bytesFind ([9, 11] ++ (List.range 16).map (fun n => n + 100))
        ((List.range 16).map (fun n => n + 100)) = some 2
    ∧ find_unit_id_in_sysfs (some ([9, 11] ++ (List.range 16).map (fun n => n + 100)))
        ((List.range 16).map (fun n => n + 100)) = 11
    ∧ find_unit_id_in_sysfs none ((List.range 16).map (fun n => n + 100)) = 0 := by
  refine ⟨by decide, ?_, ?_⟩
  · have h := (c8_find_unit_id_spec
      (some ([9, 11] ++ (List.range 16).map (fun n => n + 100)))
      ((List.range 16).map (fun n => n + 100))).2.2
      ([9, 11] ++ (List.range 16).map (fun n => n + 100)) 2 rfl (by decide) (by decide)
    simpa using h.1
  · exact (c8_find_unit_id_spec none ((List.range 16).map (fun n => n + 100))).1 rfl

/-- Claim C10: when the guid is found at offset exactly 0 the function
returns 0 (treated as not present), and whenever the byte before the guid
is read the index expression `k - 1` is non-negative, so `pyByteAt` never
takes its negative-index (wrap to the end of the blob) branch: the function
never reads a byte before the start of the blob. -/
theorem c10_guid_at_offset_zero_ignored (d guid : List Nat) :
    (bytesFind d guid = some 0 → find_unit_id_in_sysfs (some d) guid = 0)
    ∧ (∀ k, bytesFind d guid = some k → 0 < k →
        ¬ ((k : Int) - 1 < 0)
        ∧ find_unit_id_in_sysfs (some d) guid = d.getD (((k : Int) - 1).toNat) 0
        ∧ (guid ≠ [] → ((k : Int) - 1).toNat < d.length)) := by
  constructor
  · intro h
    simp [find_unit_id_in_sysfs, h]
  · intro k hf hk
    have hneg : ¬ ((k : Int) - 1 < 0) := by omega
    refine ⟨hneg, ?_, ?_⟩
    · simp [find_unit_id_in_sysfs, hf, hk, pyByteAt, hneg]
    · intro hg
      have hbound := bytesFind_some_bound d guid k hf
      have : 0 < guid.length := List.length_pos.mpr hg
      omega

/-- Claim C10 witness: guid occurring at offset 0 yields 0 even though a
later occurrence exists, and a found offset 3 reads index 2 of the blob. -/
theorem c10_guid_at_offset_zero_ignored_witness :
    find_unit_id_in_sysfs (some [5, 6, 5, 6]) [5, 6] = 0
    ∧ ¬ ((3 : Int) - 1 < 0)
    ∧ find_unit_id_in_sysfs (some [9, 9, 7, 5, 6]) [5, 6] = 7 := by
  refine ⟨(c10_guid_at_offset_zero_ignored [5, 6, 5, 6] [5, 6]).1 (by decide), ?_, ?_⟩
  · exact ((c10_guid_at_offset_zero_ignored [9, 9, 7, 5, 6] [5, 6]).2 3 (by decide) (by decide)).1
  · have h := ((c10_guid_at_offset_zero_ignored [9, 9, 7, 5, 6] [5, 6]).2 3 (by decide) (by decide)).2.1
    simpa using h

/-- Claim C9 counterexample: the vendor id file exists but reading it
raises; the function returns `":0e05"`, not the empty string the claim
demands for an unreadable id file. -/
theorem c9_counterexample_unreadable_vendor :
    find_usb_ids_in_sysfs FileState.unreadable (FileState.content "0e05") = ":0e05"
    ∧ (":0e05" : String) ≠ "" := by
  constructor
  · rfl
  · decide

/-- Claim C9 (amended): the result is empty exactly when one of the two id
files is missing; when both are readable the result is the stripped vendor
id, a colon, and the stripped product id. An existing but unreadable file
degrades to an empty id inside the joined string instead of emptying the
whole result. -/
theorem c9_usb_ids_empty_iff_missing (vendor product : FileState) :
    (find_usb_ids_in_sysfs vendor product = "" ↔
      vendor = FileState.missing ∨ product = FileState.missing)
    ∧ (∀ s t, vendor = FileState.content s → product = FileState.content t →
        find_usb_ids_in_sysfs vendor product = pyStrip s ++ ":" ++ pyStrip t) := by
  constructor
  · constructor
    · intro h
      by_contra hc
      push_neg at hc
      have hne : ¬ (vendor = FileState.missing ∨ product = FileState.missing) := by
        intro hor
        cases hor with
        | inl h1 => exact hc.1 h1
        | inr h2 => exact hc.2 h2
      rw [find_usb_ids_in_sysfs, if_neg hne] at h
      have hlen := congrArg String.length h
      rw [String.length_append, String.length_append] at hlen
      have h1 : (":" : String).length = 1 := rfl
      have h0 : ("" : String).length = 0 := rfl
      rw [h1, h0] at hlen
      omega
    · intro h
      rw [find_usb_ids_in_sysfs, if_pos h]
  · intro s t hs ht
    subst hs
    subst ht
    rw [find_usb_ids_in_sysfs, if_neg (by simp)]
    rfl

/-- Claim C9 witness: both files readable gives `"046d:0825"`; a missing
product file gives the empty string. -/
theorem c9_usb_ids_empty_iff_missing_witness :
    find_usb_ids_in_sysfs (FileState.content "046d\n") (FileState.content "0825\n")
      = "046d:0825"
    ∧ find_usb_ids_in_sysfs (FileState.content "046d\n") FileState.missing = "" := by
  constructor
  · have h := (c9_usb_ids_empty_iff_missing (FileState.content "046d\n")
      (FileState.content "0825\n")).2 "046d\n" "0825\n" rfl rfl
    rw [h]
    rfl
  · exact (c9_usb_ids_empty_iff_missing (FileState.content "046d\n")
      FileState.missing).1.mpr (Or.inr rfl)

-- Native control source (V4L2Ctrls).

def V4L2_CID_BASE : Nat := 0x980900

def V4L2_CID_AUTO_WHITE_BALANCE : Nat := V4L2_CID_BASE + 12

def V4L2_CID_WHITE_BALANCE_TEMPERATURE : Nat := V4L2_CID_BASE + 26

def V4L2_CID_CAMERA_CLASS_BASE : Nat := 0x9a0900

def V4L2_CID_EXPOSURE_AUTO : Nat := V4L2_CID_CAMERA_CLASS_BASE + 1

def V4L2_CID_FOCUS_ABSOLUTE : Nat := V4L2_CID_CAMERA_CLASS_BASE + 10

def V4L2_CID_FOCUS_AUTO : Nat := V4L2_CID_CAMERA_CLASS_BASE + 12

def V4L2_CID_ISO_SENSITIVITY_AUTO : Nat := V4L2_CID_CAMERA_CLASS_BASE + 24

/-- Control ids flagged as updaters by design (`V4L2_CTRL_UPDATERS`). -/
def V4L2_CTRL_UPDATERS : List Nat :=
  [V4L2_CID_EXPOSURE_AUTO, V4L2_CID_FOCUS_AUTO,
   V4L2_CID_AUTO_WHITE_BALANCE, V4L2_CID_ISO_SENSITIVITY_AUTO]

/-- The two updater-to-dependent pairs (`V4L2_CTRL_REORDERS`), in the
dict's insertion order. -/
def V4L2_CTRL_REORDERS : List (Nat × Nat) :=
  [(V4L2_CID_FOCUS_AUTO, V4L2_CID_FOCUS_ABSOLUTE),
   (V4L2_CID_AUTO_WHITE_BALANCE, V4L2_CID_WHITE_BALANCE_TEMPERATURE)]

/-- ASCII lower-casing as done by `bytes.lower`. -/
def lowerChar (c : Char) : Char :=
  if 'A' ≤ c && c ≤ 'Z' then Char.ofNat (c.toNat + 32) else c

/-- The `strtrans` table: space and hyphen map to underscore. -/
def strtransChar (c : Char) : Char := if c = ' ' || c = '-' then '_' else c

/-- Bytes removed by `translate(..., delete = b',&(.)/')`. -/
def deleteSet : List Char := [',', '&', '(', '.', ')', '/']

/-- Single left-to-right pass of `replace(b'__', b'_')`. -/
def squeezeUnders : List Char → List Char
  | '_' :: '_' :: rest => '_' :: squeezeUnders rest
  | c :: rest => c :: squeezeUnders rest
  | [] => []

/-- `V4L2Ctrls.to_text_id`: lower-case, delete `,&(.)/`, map space and
hyphen to `_`, then collapse doubled underscores once. -/
def to_text_id (name : String) : String :=
  String.mk (squeezeUnders
    (((name.toList.map lowerChar).filter (fun c => ¬ deleteSet.contains c)).map
      strtransChar))

/-- Observable action of a setup pass: a native `VIDIOC_S_CTRL` write, an
extension-unit `GET`/`SET` transfer, a logged warning, or the batched
unknown-controls warning of the aggregator. -/
inductive Event where
  | sctrl (id : Nat) (value : Int)
  | xuGet (selector : Nat) (frame : List Nat)
  | xuWrite (selector : Nat) (frame : List Nat)
  | warn (tag : String)
  | warnUnknown (ids : List String)
  deriving DecidableEq, Repr

/-- One successful `VIDIOC_QUERYMENU` answer: the union field of
`v4l2_querymenu` (`name` for text menus, `value` for integer menus). -/
structure QMenuRec where
  mname : String
  mvalue : Int
  deriving DecidableEq, Repr

/-- One successful `VIDIOC_QUERYCTRL` answer of the driver enumeration,
together with the `VIDIOC_G_CTRL` answer for that id (`none` = the ioctl
raised, leaving the zero-initialised value) and the `VIDIOC_QUERYMENU`
answers by index (absent index = the driver rejected it). -/
structure QCtrlRec where
  id : Nat
  qtype : Nat
  name : String
  minimum : Int
  maximum : Int
  step : Int
  default : Int
  flags : Nat
  gctrl : Option Int
  menuq : List (Int × QMenuRec)
  deriving DecidableEq, Repr

/-- A menu entry of a native control (`BaseCtrlMenu` with an index value). -/
structure V4L2Menu where
  text_id : String
  name : String
  value : Int
  deriving DecidableEq, Repr

/-- A native control (`V4L2Ctrl`). -/
structure V4L2Ctrl where
  id : Nat
  text_id : String
  name : String
  type : String
  value : PyVal
  default : PyVal
  min : Int
  max : Int
  step : Int
  updater : Bool
  inactive : Bool
  menu : Option (List V4L2Menu)
  deriving DecidableEq, Repr

/-- `find_idx` of the source: index of the first element satisfying the
predicate, `None` when there is none. -/
def find_idx {α : Type} : List α → (α → Bool) → Option Nat
  | [], _ => none
  | x :: xs, p => if p x then some 0 else (find_idx xs p).map (fun n => n + 1)

/-- Python `list.insert`: insert at the index, clamping past the end. -/
def insertAt {α : Type} : List α → Nat → α → List α
  | l, 0, a => a :: l
  | [], _ + 1, a => [a]
  | x :: xs, n + 1, a => x :: insertAt xs n a

/-- In-place mutation of the first element matching the predicate, as done
through the aliased object returned by the `find_by_*` helpers. -/
def updateFirst {α : Type} (p : α → Bool) (f : α → α) : List α → List α
  | [] => []
  | x :: xs => if p x then f x :: xs else x :: updateFirst p f xs

/-- Python `range(lo, hi + 1)` over `Int`. -/
def intRange (lo hi : Int) : List Int :=
  (List.range (hi + 1 - lo).toNat).map (fun n => lo + n)

/-- Driver answer to `VIDIOC_QUERYMENU` at one index. -/
def lookupMenuQ (mq : List (Int × QMenuRec)) (i : Int) : Option QMenuRec :=
  (mq.find? (fun p => p.1 == i)).map Prod.snd

/-- The `V4L2Ctrls.to_type` mapping restricted to the four accepted type
codes (1 integer, 2 boolean, 3 menu, 9 integer-menu). -/
def v4l2_to_type (t : Nat) : String :=
  if t = 1 then "integer" else if t = 2 then "boolean" else "menu"

/-- Type codes the enumeration keeps. -/
def v4l2_handled_types : List Nat := [1, 2, 3, 9]

/-- Menu entry textual id for one `VIDIOC_QUERYMENU` answer: name-derived
for text menus (type code 3), the decimal rendering of the 64-bit value for
integer menus. -/
def v4l2_menu_text_id (qtype : Nat) (mr : QMenuRec) : String :=
  if qtype = 3 then to_text_id mr.mname else toString mr.mvalue

/-- Menu entry display text. -/
def v4l2_menu_text (qtype : Nat) (mr : QMenuRec) : String :=
  if qtype = 3 then mr.mname else v4l2_menu_text_id qtype mr

/-- One iteration of the menu enumeration loop: skip an index the driver
rejects, otherwise append the entry (its value is the `c_uint32` index) and
replace a numeric current/default equal to this index by the entry's
textual id. -/
def v4l2_menu_step (qtype : Nat) (mq : List (Int × QMenuRec))
    (acc : List V4L2Menu × PyVal × PyVal) (i : Int) : List V4L2Menu × PyVal × PyVal :=
  match lookupMenuQ mq i with
  | none => acc
  | some mr =>
    (acc.1 ++ [⟨v4l2_menu_text_id qtype mr, v4l2_menu_text qtype mr, i % (2 ^ 32 : Int)⟩],
     if acc.2.1 = PyVal.int (i % (2 ^ 32 : Int))
       then PyVal.str (v4l2_menu_text_id qtype mr) else acc.2.1,
     if acc.2.2 = PyVal.int (i % (2 ^ 32 : Int))
       then PyVal.str (v4l2_menu_text_id qtype mr) else acc.2.2)

/-- Body of the enumeration loop for one `VIDIOC_QUERYCTRL` answer: build
the control, and for menu types enumerate each index from minimum to
maximum (rejected indices are skipped), replacing the numeric current and
default values by the matching entry's textual id when one matches. -/
def v4l2_build_ctrl (r : QCtrlRec) : V4L2Ctrl :=
  let base : V4L2Ctrl :=
    { id := r.id, text_id := to_text_id r.name, name := r.name,
      type := v4l2_to_type r.qtype, value := PyVal.int (r.gctrl.getD 0),
      default := PyVal.int r.default, min := r.minimum, max := r.maximum,
      step := r.step, updater := V4L2_CTRL_UPDATERS.contains r.id,
      inactive := (r.flags &&& 0x10) != 0, menu := none }
  if r.qtype = 3 ∨ r.qtype = 9 then
    { base with
      menu := some (((intRange r.minimum r.maximum).foldl
        (v4l2_menu_step r.qtype r.menuq) ([], base.value, base.default)).1),
      value := ((intRange r.minimum r.maximum).foldl
        (v4l2_menu_step r.qtype r.menuq) ([], base.value, base.default)).2.1,
      default := ((intRange r.minimum r.maximum).foldl
        (v4l2_menu_step r.qtype r.menuq) ([], base.value, base.default)).2.2 }
  else base

/-- One iteration of the reorder loop over `V4L2_CTRL_REORDERS`: note the
Python guard `if what and where:` is on truthiness, so an index of 0 is
treated like `None`. -/
def reorder_step (l : List V4L2Ctrl) (kv : Nat × Nat) : List V4L2Ctrl :=
  let what := find_idx l (fun c => c.id == kv.1)
  let wher := find_idx l (fun c => c.id == kv.2)
  match what, wher with
  | some wi, some wj =>
    if wi ≠ 0 ∧ wj ≠ 0 then
      match l.get? wi with
      | some c => insertAt (l.eraseIdx wi) (if wi < wj then wj - 1 else wj) c
      | none => l
    else l
  | _, _ => l

/-- The presentation-order adjustment at the end of
`V4L2Ctrls.get_device_controls`. -/
def v4l2_reorder (l : List V4L2Ctrl) : List V4L2Ctrl :=
  V4L2_CTRL_REORDERS.foldl reorder_step l

/-- `V4L2Ctrls.get_device_controls` over the driver enumeration: keep the
four handled control types, build each control, then apply the reorder
pass. -/
def v4l2_get_device_controls (recs : List QCtrlRec) : List V4L2Ctrl :=
  v4l2_reorder ((recs.filter (fun r => v4l2_handled_types.contains r.qtype)).map
    v4l2_build_ctrl)

-- Concrete enumeration for the C1 failing input: the updater sits at
-- index 0, its dependent at index 2.

def qrecFocusAuto : QCtrlRec :=
  { id := V4L2_CID_FOCUS_AUTO, qtype := 2, name := "Focus, Automatic Continuous",
    minimum := 0, maximum := 1, step := 1, default := 1, flags := 0,
    gctrl := some 1, menuq := [] }

def qrecBrightness : QCtrlRec :=
  { id := V4L2_CID_BASE, qtype := 1, name := "Brightness",
    minimum := 0, maximum := 255, step := 1, default := 128, flags := 0,
    gctrl := some 128, menuq := [] }

def qrecFocusAbsolute : QCtrlRec :=
  { id := V4L2_CID_FOCUS_ABSOLUTE, qtype := 1, name := "Focus, Absolute",
    minimum := 0, maximum := 250, step := 5, default := 0, flags := 0x10,
    gctrl := some 0, menuq := [] }

/-- Claim C1: code bug, evaluated at the failing input. With focus-auto
enumerated at index 0 and focus-absolute at index 2, both controls are
present, yet the reorder pass leaves the list unchanged — focus-auto is
not moved to sit immediately before focus-absolute — because the guard
`if what and where:` treats the index 0 returned by `find_idx` as falsy. -/
theorem c1_reorder_skipped_when_updater_first :
    (v4l2_get_device_controls [qrecFocusAuto, qrecBrightness, qrecFocusAbsolute]).map
        (fun c => c.id)
      = [V4L2_CID_FOCUS_AUTO, V4L2_CID_BASE, V4L2_CID_FOCUS_ABSOLUTE]
    ∧ find_idx (v4l2_get_device_controls [qrecFocusAuto, qrecBrightness, qrecFocusAbsolute])
        (fun c => c.id == V4L2_CID_FOCUS_AUTO) = some 0
    ∧ find_idx (v4l2_get_device_controls [qrecFocusAuto, qrecBrightness, qrecFocusAbsolute])
        (fun c => c.id == V4L2_CID_FOCUS_ABSOLUTE) = some 2 := by
  refine ⟨?_, ?_, ?_⟩ <;> rfl

-- `V4L2Ctrls.setup_ctrls`.

/-- `find_by_text_id` over the native control list. -/
def v4l2_find_ctrl (ctrls : List V4L2Ctrl) (tid : String) : Option V4L2Ctrl :=
  ctrls.find? (fun c => c.text_id == tid)

/-- `find_by_text_id` over a native menu. -/
def v4l2_find_menu (ms : List V4L2Menu) (tid : String) : Option V4L2Menu :=
  ms.find? (fun m => m.text_id == tid)

/-- The `VIDIOC_S_CTRL` write and echo check shared by the three value
kinds of `V4L2Ctrls.setup_ctrls`: the `v4l2_control` struct field truncates
the requested int to `c_int32`; a raised ioctl or an echoed value different
from the (untruncated) requested one warns and leaves the stored value
unchanged, otherwise the stored value becomes the requested menu string or
int. -/
def v4l2_do_set (echo : Nat → Int → Option Int) (ctrls : List V4L2Ctrl)
    (ctrl : V4L2Ctrl) (k v : String) (iv : Int) : List V4L2Ctrl × List Event :=
  match echo ctrl.id (wrap32 iv) with
  | none => (ctrls, [Event.sctrl ctrl.id (wrap32 iv), Event.warn "V4L2 set raised"])
  | some echoed =>
    if echoed ≠ iv then
      (ctrls, [Event.sctrl ctrl.id (wrap32 iv), Event.warn "V4L2 echo mismatch"])
    else
      (updateFirst (fun c => c.text_id == k)
        (fun c =>
          { c with value := if ctrl.type = "menu" then PyVal.str v else PyVal.int iv })
        ctrls,
       [Event.sctrl ctrl.id (wrap32 iv)])

/-- One `(k, v)` iteration of `V4L2Ctrls.setup_ctrls`; the outer `none`
models the uncaught `ValueError` of `int(v)` on an integer control (and
iterating a `None` menu). A key not owned by this source is skipped
silently; an unknown menu entry id warns and skips. Booleans go through
`int(bool(v))`, so any non-empty string counts as true. -/
def v4l2_setup_one (echo : Nat → Int → Option Int) (ctrls : List V4L2Ctrl)
    (k v : String) : Option (List V4L2Ctrl × List Event) :=
  match v4l2_find_ctrl ctrls k with
  | none => some (ctrls, [])
  | some ctrl =>
    if ctrl.type = "integer" then
      match pyParseInt v with
      | none => none
      | some iv => some (v4l2_do_set echo ctrls ctrl k v iv)
    else if ctrl.type = "boolean" then
      some (v4l2_do_set echo ctrls ctrl k v (if pyBool v then 1 else 0))
    else if ctrl.type = "menu" then
      match ctrl.menu with
      | none => none
      | some ms =>
        match v4l2_find_menu ms v with
        | none => some (ctrls, [Event.warn "V4L2 unknown menu value"])
        | some m => some (v4l2_do_set echo ctrls ctrl k v m.value)
    else
      some (ctrls, [Event.warn "V4L2 unsupported control type"])

/-- `V4L2Ctrls.setup_ctrls` over the whole params map. -/
def v4l2_setup_ctrls (echo : Nat → Int → Option Int) :
    List V4L2Ctrl → List (String × String) → Option (List V4L2Ctrl × List Event)
  | ctrls, [] => some (ctrls, [])
  | ctrls, kv :: rest =>
    (v4l2_setup_one echo ctrls kv.1 kv.2).bind (fun r1 =>
      (v4l2_setup_ctrls echo r1.1 rest).bind (fun r2 =>
        some (r2.1, r1.2 ++ r2.2)))

-- Vendor extension source A (KiyoProCtrls).

def EU1_SET_ISP : Nat := 0x01

def AF_RESPONSIVE : List Nat := [0xff, 0x06, 0x00, 0x00, 0x00, 0x00, 0x00, 0x00]

def AF_PASSIVE : List Nat := [0xff, 0x06, 0x01, 0x00, 0x00, 0x00, 0x00, 0x00]

def HDR_OFF : List Nat := [0xff, 0x02, 0x00, 0x00, 0x00, 0x00, 0x00, 0x00]

def HDR_ON : List Nat := [0xff, 0x02, 0x01, 0x00, 0x00, 0x00, 0x00, 0x00]

def HDR_DARK : List Nat := [0xff, 0x07, 0x00, 0x00, 0x00, 0x00, 0x00, 0x00]

def HDR_BRIGHT : List Nat := [0xff, 0x07, 0x01, 0x00, 0x00, 0x00, 0x00, 0x00]

def FOV_WIDE : List Nat := [0xff, 0x01, 0x00, 0x03, 0x00, 0x00, 0x00, 0x00]

def FOV_MEDIUM_PRE : List Nat := [0xff, 0x01, 0x00, 0x03, 0x01, 0x00, 0x00, 0x00]

def FOV_MEDIUM : List Nat := [0xff, 0x01, 0x01, 0x03, 0x01, 0x00, 0x00, 0x00]

def FOV_NARROW_PRE : List Nat := [0xff, 0x01, 0x00, 0x03, 0x02, 0x00, 0x00, 0x00]

def FOV_NARROW : List Nat := [0xff, 0x01, 0x01, 0x03, 0x02, 0x00, 0x00, 0x00]

/-- The save-to-persistent-storage command frame. -/
def SAVE : List Nat := [0xc0, 0x03, 0xa8, 0x00, 0x00, 0x00, 0x00, 0x00]

/-- A Kiyo menu entry (`KiyoMenu`): an 8-byte command frame and an optional
preparatory frame written before it. -/
structure KiyoMenu where
  text_id : String
  name : String
  value : List Nat
  before : Option (List Nat)
  deriving DecidableEq, Repr

/-- A Kiyo control (`KiyoCtrl`): always of menu kind, value unset until a
set stores an entry id. -/
structure KiyoCtrl where
  text_id : String
  name : String
  value : Option PyVal
  menu : List KiyoMenu
  deriving DecidableEq, Repr

/-- The Kiyo source: supported flag (unit id non-zero and usb ids equal to
the Kiyo Pro identity) and its control list. -/
structure KiyoState where
  supported : Bool
  ctrls : List KiyoCtrl
  deriving DecidableEq, Repr

/-- The four fixed controls declared by `KiyoProCtrls.get_device_controls`. -/
def kiyo_default_ctrls : List KiyoCtrl :=
  [{ text_id := "kiyo_pro_af_mode", name := "AF Mode", value := none,
     menu := [⟨"passive", "Passive", AF_PASSIVE, none⟩,
              ⟨"responsive", "Responsive", AF_RESPONSIVE, none⟩] },
   { text_id := "kiyo_pro_hdr", name := "HDR", value := none,
     menu := [⟨"off", "Off", HDR_OFF, none⟩, ⟨"on", "On", HDR_ON, none⟩] },
   { text_id := "kiyo_pro_hdr_mode", name := "HDR Mode", value := none,
     menu := [⟨"bright", "Bright", HDR_BRIGHT, none⟩,
              ⟨"dark", "Dark", HDR_DARK, none⟩] },
   { text_id := "kiyo_pro_fov", name := "FOV", value := none,
     menu := [⟨"wide", "Wide", FOV_WIDE, none⟩,
              ⟨"medium", "Medium", FOV_MEDIUM, some FOV_MEDIUM_PRE⟩,
              ⟨"narrow", "Narrow", FOV_NARROW, some FOV_NARROW_PRE⟩] }]

/-- `KiyoProCtrls` construction: the fixed control set when supported,
empty otherwise. -/
def kiyo_init (supported : Bool) : KiyoState :=
  { supported := supported, ctrls := if supported then kiyo_default_ctrls else [] }

/-- `find_by_text_id` over the Kiyo control list. -/
def kiyo_find_ctrl (ctrls : List KiyoCtrl) (tid : String) : Option KiyoCtrl :=
  ctrls.find? (fun c => c.text_id == tid)

/-- `find_by_text_id` over a Kiyo menu. -/
def kiyo_find_menu (ms : List KiyoMenu) (tid : String) : Option KiyoMenu :=
  ms.find? (fun m => m.text_id == tid)

/-- One `(k, v)` iteration of `KiyoProCtrls.setup_ctrls`: store the entry's
textual id, write the preparatory frame when the entry carries a truthy
(non-empty) one, then write the entry's main frame. -/
def kiyo_setup_one (ctrls : List KiyoCtrl) (k v : String) :
    List KiyoCtrl × List Event :=
  match kiyo_find_ctrl ctrls k with
  | none => (ctrls, [])
  | some ctrl =>
    match kiyo_find_menu ctrl.menu v with
    | none => (ctrls, [Event.warn "KiyoProCtrls unknown menu value"])
    | some m =>
      (updateFirst (fun c => c.text_id == k)
        (fun c => { c with value := some (PyVal.str m.text_id) }) ctrls,
       (match m.before with
        | some b => if b.isEmpty then [] else [Event.xuWrite EU1_SET_ISP b]
        | none => []) ++ [Event.xuWrite EU1_SET_ISP m.value])

/-- The per-pair loop of `KiyoProCtrls.setup_ctrls`. -/
def kiyo_setup_go : List KiyoCtrl → List (String × String) → List KiyoCtrl × List Event
  | ctrls, [] => (ctrls, [])
  | ctrls, kv :: rest =>
    let r1 := kiyo_setup_one ctrls kv.1 kv.2
    let r2 := kiyo_setup_go r1.1 rest
    (r2.1, r1.2 ++ r2.2)

/-- `KiyoProCtrls.setup_ctrls`: no-op when the device is unsupported;
otherwise process every pair, then issue exactly one trailing save frame
for the whole invocation. -/
def kiyo_setup_ctrls (st : KiyoState) (params : List (String × String)) :
    KiyoState × List Event :=
  if st.supported then
    let r := kiyo_setup_go st.ctrls params
    ({ st with ctrls := r.1 }, r.2 ++ [Event.xuWrite EU1_SET_ISP SAVE])
  else (st, [])

-- Vendor extension source B (LogitechCtrls).

def UVC_SET_CUR : Nat := 0x01

def UVC_GET_CUR : Nat := 0x81

def UVC_GET_MIN : Nat := 0x82

def UVC_GET_MAX : Nat := 0x83

def UVC_GET_DEF : Nat := 0x87

def LOGITECH_PERIPHERAL_LED1_SEL : Nat := 0x09

def LOGITECH_PERIPHERAL_LED1_LEN : Nat := 5

def LOGITECH_PERIPHERAL_LED1_MODE_OFFSET : Nat := 1

def LOGITECH_PERIPHERAL_LED1_FREQUENCY_OFFSET : Nat := 3

/-- A Logitech menu entry: a single register byte value. -/
structure LogiMenu where
  text_id : String
  name : String
  value : Nat
  deriving DecidableEq, Repr

/-- A Logitech control (`LogitechCtrl`): selector, register frame length
and the byte offset addressed inside the frame. -/
structure LogiCtrl where
  text_id : String
  name : String
  type : String
  selector : Nat
  len : Nat
  offset : Nat
  value : Option PyVal
  default : Option PyVal
  min : Option PyVal
  max : Option PyVal
  menu : Option (List LogiMenu)
  deriving DecidableEq, Repr

/-- The Logitech source: supported flag (unit id non-zero) and controls. -/
structure LogiState where
  supported : Bool
  ctrls : List LogiCtrl
  deriving DecidableEq, Repr

/-- ctypes buffer of a fixed length after an ioctl answer: the answer
bytes truncated or zero-padded to the buffer length (a raised ioctl leaves
the zero-initialised buffer, which is the all-zero answer). -/
def fillBuf (len : Nat) (resp : List Nat) : List Nat :=
  (resp ++ List.replicate len 0).take len

/-- The two controls declared by `LogitechCtrls.get_device_controls`. -/
def logi_declared_ctrls : List LogiCtrl :=
  [{ text_id := "logitech_led1_mode", name := "LED1 Mode", type := "menu",
     selector := LOGITECH_PERIPHERAL_LED1_SEL, len := LOGITECH_PERIPHERAL_LED1_LEN,
     offset := LOGITECH_PERIPHERAL_LED1_MODE_OFFSET,
     value := none, default := none, min := none, max := none,
     menu := some [⟨"off", "Off", 0⟩, ⟨"on", "On", 1⟩,
                   ⟨"blink", "Blink", 2⟩, ⟨"auto", "Auto", 3⟩] },
   { text_id := "logitech_led1_frequency", name := "LED1 Frequency", type := "integer",
     selector := LOGITECH_PERIPHERAL_LED1_SEL, len := LOGITECH_PERIPHERAL_LED1_LEN,
     offset := LOGITECH_PERIPHERAL_LED1_FREQUENCY_OFFSET,
     value := none, default := none, min := none, max := none, menu := none }]

/-- `find_by_value` over a Logitech menu. -/
def logi_find_by_value (ms : List LogiMenu) (n : Int) : Option LogiMenu :=
  ms.find? (fun m => (m.value : Int) == n)

/-- `find_by_text_id` over the Logitech control list. -/
def logi_find_ctrl (ctrls : List LogiCtrl) (tid : String) : Option LogiCtrl :=
  ctrls.find? (fun c => c.text_id == tid)

/-- `find_by_text_id` over a Logitech menu. -/
def logi_find_menu (ms : List LogiMenu) (tid : String) : Option LogiMenu :=
  ms.find? (fun m => m.text_id == tid)

/-- The byte extracted at the control's offset from the register frame the
device answers for one query. -/
def logi_byte (oracle : Nat → Nat → List Nat) (c : LogiCtrl) (q : Nat) : Int :=
  ((fillBuf c.len (oracle c.selector q)).getD c.offset 0 : Nat)

/-- Discovery of one declared Logitech control: query default, minimum,
maximum and current full register frames (`oracle selector query` is the
buffer content the device leaves), extract the control's byte offset from
each, and map current and default independently to a menu entry's textual
id when a matching entry exists. -/
def logi_init_one (oracle : Nat → Nat → List Nat) (c : LogiCtrl) : LogiCtrl :=
  if c.type = "menu" then
    { c with
      default := match logi_find_by_value (c.menu.getD []) (logi_byte oracle c UVC_GET_DEF) with
        | some m => some (PyVal.str m.text_id)
        | none => some (PyVal.int (logi_byte oracle c UVC_GET_DEF)),
      min := some (PyVal.int (logi_byte oracle c UVC_GET_MIN)),
      max := some (PyVal.int (logi_byte oracle c UVC_GET_MAX)),
      value := match logi_find_by_value (c.menu.getD []) (logi_byte oracle c UVC_GET_CUR) with
        | some m => some (PyVal.str m.text_id)
        | none => some (PyVal.int (logi_byte oracle c UVC_GET_CUR)) }
  else
    { c with
      default := some (PyVal.int (logi_byte oracle c UVC_GET_DEF)),
      min := some (PyVal.int (logi_byte oracle c UVC_GET_MIN)),
      max := some (PyVal.int (logi_byte oracle c UVC_GET_MAX)),
      value := some (PyVal.int (logi_byte oracle c UVC_GET_CUR)) }

/-- `LogitechCtrls` construction: with a non-zero unit id, run discovery on
every declared control; unsupported devices expose no controls. -/
def logi_init (supported : Bool) (oracle : Nat → Nat → List Nat) : LogiState :=
  if supported then
    { supported := true, ctrls := logi_declared_ctrls.map (logi_init_one oracle) }
  else { supported := false, ctrls := [] }

/-- The menu-entry mapping applied to both compared sides in the Logitech
set path: for a menu control a raw byte is replaced by the matching entry's
textual id when one exists (`find_by_value`), otherwise (and for integer
controls) the raw int is kept. -/
def logi_view (ctrl : LogiCtrl) (n : Int) : PyVal :=
  if ctrl.type = "menu" then
    match logi_find_by_value (ctrl.menu.getD []) n with
    | some m => PyVal.str m.text_id
    | none => PyVal.int n
  else PyVal.int n

/-- The register frame actually written by the Logitech set path: the frame
just read, with only the byte at the control's offset overwritten. -/
def logi_written (ctrl : LogiCtrl) (reg : List Nat) (iv : Int) : List Nat :=
  (fillBuf ctrl.len reg).set ctrl.offset iv.toNat

/-- The write-and-verify tail of one `LogitechCtrls.setup_ctrls` iteration:
read the full current register frame, overwrite the single byte at the
control's offset, write the frame, read the register again, and compare the
byte now at the offset against the requested value (both mapped to menu
entry text ids for menu controls); on mismatch warn and leave the stored
value unchanged, on match store the requested value. `none` models the
`c_char` range error for a byte outside 0..255. `applyF old written` is the
register content after the device handles the `SET_CUR`. -/
def logi_write_verify (applyF : List Nat → List Nat → List Nat) (reg : List Nat)
    (ctrls : List LogiCtrl) (ctrl : LogiCtrl) (k : String) (iv : Int) :
    Option (List LogiCtrl × List Nat × List Event) :=
  if iv < 0 ∨ 255 < iv then none
  else
    if logi_view ctrl ((fillBuf ctrl.len (applyF reg (logi_written ctrl reg iv))).getD ctrl.offset 0 : Nat)
        ≠ logi_view ctrl iv then
      some (ctrls, applyF reg (logi_written ctrl reg iv),
        [Event.xuGet ctrl.selector (fillBuf ctrl.len reg),
         Event.xuWrite ctrl.selector (logi_written ctrl reg iv),
         Event.xuGet ctrl.selector (fillBuf ctrl.len (applyF reg (logi_written ctrl reg iv))),
         Event.warn "LogitechCtrls readback mismatch"])
    else
      some (updateFirst (fun c => c.text_id == k)
        (fun c => { c with value := some (logi_view ctrl iv) }) ctrls,
        applyF reg (logi_written ctrl reg iv),
        [Event.xuGet ctrl.selector (fillBuf ctrl.len reg),
         Event.xuWrite ctrl.selector (logi_written ctrl reg iv),
         Event.xuGet ctrl.selector (fillBuf ctrl.len (applyF reg (logi_written ctrl reg iv)))])

/-- One `(k, v)` iteration of `LogitechCtrls.setup_ctrls`; `none` models
the uncaught `ValueError` of `int(v)` on the integer control. -/
def logi_setup_one (applyF : List Nat → List Nat → List Nat) (reg : List Nat)
    (ctrls : List LogiCtrl) (k v : String) :
    Option (List LogiCtrl × List Nat × List Event) :=
  match logi_find_ctrl ctrls k with
  | none => some (ctrls, reg, [])
  | some ctrl =>
    if ctrl.type = "menu" then
      match ctrl.menu with
      | none => none
      | some ms =>
        match logi_find_menu ms v with
        | none => some (ctrls, reg, [Event.warn "LogitechCtrls unknown menu value"])
        | some m => logi_write_verify applyF reg ctrls ctrl k (m.value : Nat)
    else if ctrl.type = "integer" then
      match pyParseInt v with
      | none => none
      | some iv => logi_write_verify applyF reg ctrls ctrl k iv
    else some (ctrls, reg, [Event.warn "LogitechCtrls unsupported control type"])

/-- The per-pair loop of `LogitechCtrls.setup_ctrls`. -/
def logi_setup_go (applyF : List Nat → List Nat → List Nat) :
    List Nat → List LogiCtrl → List (String × String) →
      Option (List LogiCtrl × List Nat × List Event)
  | reg, ctrls, [] => some (ctrls, reg, [])
  | reg, ctrls, kv :: rest =>
    (logi_setup_one applyF reg ctrls kv.1 kv.2).bind (fun r1 =>
      (logi_setup_go applyF r1.2.1 r1.1 rest).bind (fun r2 =>
        some (r2.1, r2.2.1, r1.2.2 ++ r2.2.2)))

/-- `LogitechCtrls.setup_ctrls`: no-op when unsupported. -/
def logi_setup_ctrls (applyF : List Nat → List Nat → List Nat) (st : LogiState)
    (reg : List Nat) (params : List (String × String)) :
    Option (LogiState × List Nat × List Event) :=
  if st.supported then
    (logi_setup_go applyF reg st.ctrls params).bind (fun r =>
      some ({ st with ctrls := r.1 }, r.2.1, r.2.2))
  else some (st, reg, [])

-- Control aggregator (CameraCtrls).

/-- The aggregator's state: the three sources in their fixed order. -/
structure CameraState where
  v4l2 : List V4L2Ctrl
  kiyo : KiyoState
  logi : LogiState
  deriving DecidableEq, Repr

/-- The duck-typed view of a control the aggregator relies on: its textual
id and its stored value. -/
structure CtrlView where
  text_id : String
  value : Option PyVal
  deriving DecidableEq, Repr

/-- `CameraCtrls.get_ctrls`: concatenation of every source's controls in
source order. -/
def camera_get_ctrls (st : CameraState) : List CtrlView :=
  st.v4l2.map (fun c => ⟨c.text_id, some c.value⟩)
    ++ st.kiyo.ctrls.map (fun c => ⟨c.text_id, c.value⟩)
    ++ st.logi.ctrls.map (fun c => ⟨c.text_id, c.value⟩)

/-- Python `set()` of the key list: duplicates collapsed (keeping the last
occurrence as representative order; the real set order is unspecified). -/
def dedupKeys : List String → List String
  | [] => []
  | k :: rest => if rest.contains k then dedupKeys rest else k :: dedupKeys rest

/-- The `id = currentValue` pairs a parse of the `print_ctrls` output
yields: each line starts `{text_id} = {value}`, with the stored value
rendered by `str()`. -/
def printed_pairs (st : CameraState) : List (String × String) :=
  (camera_get_ctrls st).map (fun c => (c.text_id, pyStrOpt c.value))

/-- `CameraCtrls.setup_ctrls`: hand the whole params map to every source in
order; afterwards warn once about the batch of keys no source owns. An
uncaught exception in a source propagates (`none`) and skips the rest. -/
def camera_setup_ctrls (echo : Nat → Int → Option Int)
    (applyF : List Nat → List Nat → List Nat) (st : CameraState) (reg : List Nat)
    (params : List (String × String)) :
    Option (CameraState × List Nat × List Event) :=
  (v4l2_setup_ctrls echo st.v4l2 params).bind (fun rv =>
    (logi_setup_ctrls applyF st.logi reg params).bind (fun rl =>
      some (⟨rv.1, (kiyo_setup_ctrls st.kiyo params).1, rl.1⟩, rl.2.1,
        rv.2 ++ (kiyo_setup_ctrls st.kiyo params).2 ++ rl.2.2
          ++ (if (dedupKeys ((params.map Prod.fst).filter (fun k =>
                !(((camera_get_ctrls ⟨rv.1, (kiyo_setup_ctrls st.kiyo params).1, rl.1⟩).map
                    (fun c => c.text_id)).contains k)))).isEmpty
              then []
              else [Event.warnUnknown (dedupKeys ((params.map Prod.fst).filter (fun k =>
                !(((camera_get_ctrls ⟨rv.1, (kiyo_setup_ctrls st.kiyo params).1, rl.1⟩).map
                    (fun c => c.text_id)).contains k))))]))))

-- Concrete fixtures used by the evaluated claims.

/-- A boolean native control with current value 0. -/
def qrecFooBool : QCtrlRec :=
  { id := 0x980910, qtype := 2, name := "Foo", minimum := 0, maximum := 1,
    step := 1, default := 0, flags := 0, gctrl := some 0, menuq := [] }

/-- Camera with only that boolean control; the two vendor sources are
unsupported. -/
def c6_state : CameraState :=
  ⟨v4l2_get_device_controls [qrecFooBool], kiyo_init false,
   logi_init false (fun _ _ => [])⟩

/-- A well-behaved driver: `VIDIOC_S_CTRL` echoes the requested value. -/
def honestEcho : Nat → Int → Option Int := fun _ r => some r

/-- A well-behaved register device: a `SET_CUR` stores the written frame. -/
def honestApply : List Nat → List Nat → List Nat := fun _ w => w

/-- Claim C6: code bug, evaluated at the failing input. The only control is
a boolean whose stored value is 0; `print_ctrls` renders it as `foo = 0`,
and feeding the pair `("foo", "0")` back through `setup_ctrls` sets the
control to 1 on a perfectly honest device, because the boolean path parses
the value with `int(bool(v))` and the non-empty string `"0"` is truthy.
The print-then-set round trip is not a no-op. -/
theorem c6_print_set_roundtrip_flips_boolean :
    (v4l2_get_device_controls [qrecFooBool]).map (fun c => c.value) = [PyVal.int 0]
    ∧ printed_pairs c6_state = [("foo", "0")]
    ∧ (camera_setup_ctrls honestEcho honestApply c6_state []
          (printed_pairs c6_state)).map (fun r => r.1.v4l2.map (fun c => c.value))
        = some [PyVal.int 1] := by
  exact ⟨rfl, rfl, rfl⟩

/-- A Logitech device whose current LED1 register frame holds the byte 4
at the mode offset — a value matching no menu entry (entries are 0..3). -/
def c2_oracle : Nat → Nat → List Nat :=
  fun _ q => if q = UVC_GET_CUR then [0, 4, 0, 0, 0] else [0, 0, 0, 0, 0]

/-- Claim C2 counterexample: after discovery on `c2_oracle`, the menu
control `logitech_led1_mode` stores the raw numeric byte 4 — not any menu
entry's textual id — so "the stored value equals the textual identifier of
one of the menu entries, never the raw numeric value" fails. -/
theorem c2_counterexample_raw_byte_survives :
    ((logi_init true c2_oracle).ctrls.map (fun c => (c.type, c.text_id, c.value)))
      = [("menu", "logitech_led1_mode", some (PyVal.int 4)),
         ("integer", "logitech_led1_frequency", some (PyVal.int 0))]
    ∧ ((logi_init true c2_oracle).ctrls.all (fun c =>
        (c.menu.getD []).all (fun m => decide (c.value ≠ some (PyVal.str m.text_id)))))
      = true := by
  exact ⟨rfl, rfl⟩

/-- An integer native control named `Foo Bar`. -/
def qrecFooBar1 : QCtrlRec :=
  { id := 0x980901, qtype := 1, name := "Foo Bar", minimum := 0, maximum := 10,
    step := 1, default := 5, flags := 0, gctrl := some 5, menuq := [] }

/-- A distinct integer native control named `Foo-Bar`, folding to the same
textual id. -/
def qrecFooBar2 : QCtrlRec :=
  { id := 0x980902, qtype := 1, name := "Foo-Bar", minimum := 0, maximum := 10,
    step := 1, default := 5, flags := 0, gctrl := some 5, menuq := [] }

/-- Claim C7 counterexample: two distinct controls (different driver ids,
different display names) fold to the same textual id `foo_bar`, and both
survive in the merged list with no data-integrity flag — no collision check
exists anywhere in the pipeline. -/
theorem c7_counterexample_collision_survives :
    (camera_get_ctrls ⟨v4l2_get_device_controls [qrecFooBar1, qrecFooBar2],
        kiyo_init false, logi_init false (fun _ _ => [])⟩).map (fun c => c.text_id)
      = ["foo_bar", "foo_bar"]
    ∧ qrecFooBar1.name ≠ qrecFooBar2.name
    ∧ qrecFooBar1.id ≠ qrecFooBar2.id := by
  refine ⟨rfl, by decide, by decide⟩


-- Preservation lemmas: a setup pass only rewrites stored values, so the
-- identifying attributes of the controls are unchanged.

theorem updateFirst_map {α β : Type} (g : α → β) (p : α → Bool) (f : α → α)
    (hf : ∀ a, g (f a) = g a) : ∀ l : List α, (updateFirst p f l).map g = l.map g := by
  intro l
  induction l with
  | nil => rfl
  | cons x xs ih =>
    by_cases hp : p x
    · simp [updateFirst, hp, hf]
    · simp [updateFirst, hp, ih]

theorem updateFirst_value_v4l2 (p : V4L2Ctrl → Bool) (w : V4L2Ctrl → PyVal)
    (l : List V4L2Ctrl) :
    (updateFirst p (fun c => { c with value := w c }) l).map (fun c => c.text_id)
      = l.map (fun c => c.text_id) :=
  updateFirst_map (fun c : V4L2Ctrl => c.text_id) p (fun c => { c with value := w c })
    (fun _ => rfl) l

theorem updateFirst_value_kiyo (p : KiyoCtrl → Bool) (w : KiyoCtrl → Option PyVal)
    (l : List KiyoCtrl) :
    (updateFirst p (fun c => { c with value := w c }) l).map (fun c => (c.text_id, c.menu))
      = l.map (fun c => (c.text_id, c.menu)) :=
  updateFirst_map (fun c : KiyoCtrl => (c.text_id, c.menu)) p (fun c => { c with value := w c })
    (fun _ => rfl) l

theorem updateFirst_value_logi (p : LogiCtrl → Bool) (w : LogiCtrl → Option PyVal)
    (l : List LogiCtrl) :
    (updateFirst p (fun c => { c with value := w c }) l).map (fun c => c.text_id)
      = l.map (fun c => c.text_id) :=
  updateFirst_map (fun c : LogiCtrl => c.text_id) p (fun c => { c with value := w c })
    (fun _ => rfl) l

theorem v4l2_do_set_ids (echo : Nat → Int → Option Int) (ctrls : List V4L2Ctrl)
    (ctrl : V4L2Ctrl) (k v : String) (iv : Int) :
    ((v4l2_do_set echo ctrls ctrl k v iv).1).map (fun c => c.text_id)
      = ctrls.map (fun c => c.text_id) := by
  unfold v4l2_do_set
  split
  · rfl
  · split
    · rfl
    · exact updateFirst_value_v4l2 _ _ ctrls

theorem v4l2_setup_one_ids (echo : Nat → Int → Option Int) (ctrls : List V4L2Ctrl)
    (k v : String) (r : List V4L2Ctrl × List Event)
    (h : v4l2_setup_one echo ctrls k v = some r) :
    r.1.map (fun c => c.text_id) = ctrls.map (fun c => c.text_id) := by
  unfold v4l2_setup_one at h
  split at h
  · injection h with h1
    rw [← h1]
  · split at h
    · split at h
      · cases h
      · injection h with h1
        rw [← h1]
        exact v4l2_do_set_ids _ _ _ _ _ _
    · split at h
      · injection h with h1
        rw [← h1]
        exact v4l2_do_set_ids _ _ _ _ _ _
      · split at h
        · split at h
          · cases h
          · split at h
            · injection h with h1
              rw [← h1]
            · injection h with h1
              rw [← h1]
              exact v4l2_do_set_ids _ _ _ _ _ _
        · injection h with h1
          rw [← h1]

theorem v4l2_setup_ctrls_ids (echo : Nat → Int → Option Int) :
    ∀ (params : List (String × String)) (ctrls : List V4L2Ctrl)
      (r : List V4L2Ctrl × List Event),
      v4l2_setup_ctrls echo ctrls params = some r →
      r.1.map (fun c => c.text_id) = ctrls.map (fun c => c.text_id) := by
  intro params
  induction params with
  | nil =>
    intro ctrls r h
    injection h with h1
    rw [← h1]
  | cons kv rest ih =>
    intro ctrls r h
    simp only [v4l2_setup_ctrls] at h
    cases h1 : v4l2_setup_one echo ctrls kv.1 kv.2 with
    | none => simp only [h1, Option.none_bind] at h; exact Option.noConfusion h
    | some r1 =>
      simp only [h1, Option.some_bind] at h
      cases h2 : v4l2_setup_ctrls echo r1.1 rest with
      | none => simp only [h2, Option.none_bind] at h; exact Option.noConfusion h
      | some r2 =>
        simp only [h2, Option.some_bind] at h
        injection h with h3
        rw [← h3]
        exact (ih r1.1 r2 h2).trans (v4l2_setup_one_ids echo ctrls kv.1 kv.2 r1 h1)

theorem kiyo_setup_one_pairs (ctrls : List KiyoCtrl) (k v : String) :
    ((kiyo_setup_one ctrls k v).1).map (fun c => (c.text_id, c.menu))
      = ctrls.map (fun c => (c.text_id, c.menu)) := by
  unfold kiyo_setup_one
  split
  · rfl
  · split
    · rfl
    · exact updateFirst_value_kiyo _ _ ctrls

theorem kiyo_setup_go_pairs :
    ∀ (params : List (String × String)) (ctrls : List KiyoCtrl),
      ((kiyo_setup_go ctrls params).1).map (fun c => (c.text_id, c.menu))
        = ctrls.map (fun c => (c.text_id, c.menu)) := by
  intro params
  induction params with
  | nil => intro ctrls; rfl
  | cons kv rest ih =>
    intro ctrls
    simp only [kiyo_setup_go]
    exact (ih (kiyo_setup_one ctrls kv.1 kv.2).1).trans (kiyo_setup_one_pairs ctrls kv.1 kv.2)

theorem kiyo_setup_ctrls_pairs (st : KiyoState) (params : List (String × String)) :
    ((kiyo_setup_ctrls st params).1).ctrls.map (fun c => (c.text_id, c.menu))
      = st.ctrls.map (fun c => (c.text_id, c.menu))
    ∧ ((kiyo_setup_ctrls st params).1).supported = st.supported := by
  unfold kiyo_setup_ctrls
  split
  · exact ⟨kiyo_setup_go_pairs params st.ctrls, rfl⟩
  · exact ⟨rfl, rfl⟩

theorem kiyo_setup_ctrls_ids (st : KiyoState) (params : List (String × String)) :
    ((kiyo_setup_ctrls st params).1).ctrls.map (fun c => c.text_id)
      = st.ctrls.map (fun c => c.text_id) := by
  have h2 := congrArg (List.map Prod.fst) (kiyo_setup_ctrls_pairs st params).1
  rw [List.map_map, List.map_map] at h2
  exact h2

theorem logi_write_verify_ids (applyF : List Nat → List Nat → List Nat)
    (reg : List Nat) (ctrls : List LogiCtrl) (ctrl : LogiCtrl) (k : String) (iv : Int)
    (r : List LogiCtrl × List Nat × List Event)
    (h : logi_write_verify applyF reg ctrls ctrl k iv = some r) :
    r.1.map (fun c => c.text_id) = ctrls.map (fun c => c.text_id) := by
  unfold logi_write_verify at h
  split at h
  · cases h
  · split at h
    · injection h with h1
      rw [← h1]
    · injection h with h1
      rw [← h1]
      exact updateFirst_value_logi _ _ ctrls

theorem logi_setup_one_ids (applyF : List Nat → List Nat → List Nat)
    (reg : List Nat) (ctrls : List LogiCtrl) (k v : String)
    (r : List LogiCtrl × List Nat × List Event)
    (h : logi_setup_one applyF reg ctrls k v = some r) :
    r.1.map (fun c => c.text_id) = ctrls.map (fun c => c.text_id) := by
  unfold logi_setup_one at h
  split at h
  · injection h with h1
    rw [← h1]
  · split at h
    · split at h
      · cases h
      · split at h
        · injection h with h1
          rw [← h1]
        · exact logi_write_verify_ids _ _ _ _ _ _ _ h
    · split at h
      · split at h
        · cases h
        · exact logi_write_verify_ids _ _ _ _ _ _ _ h
      · injection h with h1
        rw [← h1]

theorem logi_setup_go_ids (applyF : List Nat → List Nat → List Nat) :
    ∀ (params : List (String × String)) (reg : List Nat) (ctrls : List LogiCtrl)
      (r : List LogiCtrl × List Nat × List Event),
      logi_setup_go applyF reg ctrls params = some r →
      r.1.map (fun c => c.text_id) = ctrls.map (fun c => c.text_id) := by
  intro params
  induction params with
  | nil =>
    intro reg ctrls r h
    injection h with h1
    rw [← h1]
  | cons kv rest ih =>
    intro reg ctrls r h
    simp only [logi_setup_go] at h
    cases h1 : logi_setup_one applyF reg ctrls kv.1 kv.2 with
    | none => simp only [h1, Option.none_bind] at h; exact Option.noConfusion h
    | some r1 =>
      simp only [h1, Option.some_bind] at h
      cases h2 : logi_setup_go applyF r1.2.1 r1.1 rest with
      | none => simp only [h2, Option.none_bind] at h; exact Option.noConfusion h
      | some r2 =>
        simp only [h2, Option.some_bind] at h
        injection h with h3
        rw [← h3]
        exact (ih r1.2.1 r1.1 r2 h2).trans
          (logi_setup_one_ids applyF reg ctrls kv.1 kv.2 r1 h1)

theorem logi_setup_ctrls_ids (applyF : List Nat → List Nat → List Nat)
    (st : LogiState) (reg : List Nat) (params : List (String × String))
    (r : LogiState × List Nat × List Event)
    (h : logi_setup_ctrls applyF st reg params = some r) :
    r.1.ctrls.map (fun c => c.text_id) = st.ctrls.map (fun c => c.text_id)
    ∧ r.1.supported = st.supported := by
  unfold logi_setup_ctrls at h
  split at h
  · cases h1 : logi_setup_go applyF reg st.ctrls params with
    | none => simp only [h1, Option.none_bind] at h; exact Option.noConfusion h
    | some r1 =>
      simp only [h1, Option.some_bind] at h
      injection h with h2
      rw [← h2]
      exact ⟨logi_setup_go_ids applyF params reg st.ctrls r1 h1, rfl⟩
  · injection h with h2
    rw [← h2]
    exact ⟨rfl, rfl⟩

-- A key owned by no control of a source is skipped by that source without
-- any effect: `find_by_text_id` returns `None` and the loop continues.

theorem find_none_of_not_mem {α : Type} (g : α → String) (l : List α) (k : String)
    (h : k ∉ l.map g) : l.find? (fun c => g c == k) = none := by
  rw [List.find?_eq_none]
  intro a ha
  simp only [beq_iff_eq]
  intro hgk
  exact h (hgk ▸ List.mem_map_of_mem g ha)

theorem v4l2_setup_one_skip (echo : Nat → Int → Option Int) (ctrls : List V4L2Ctrl)
    (k v : String) (h : k ∉ ctrls.map (fun c => c.text_id)) :
    v4l2_setup_one echo ctrls k v = some (ctrls, []) := by
  unfold v4l2_setup_one v4l2_find_ctrl
  rw [find_none_of_not_mem (fun c => c.text_id) ctrls k h]

theorem kiyo_setup_one_skip (ctrls : List KiyoCtrl) (k v : String)
    (h : k ∉ ctrls.map (fun c => c.text_id)) :
    kiyo_setup_one ctrls k v = (ctrls, []) := by
  unfold kiyo_setup_one kiyo_find_ctrl
  rw [find_none_of_not_mem (fun c => c.text_id) ctrls k h]

theorem logi_setup_one_skip (applyF : List Nat → List Nat → List Nat) (reg : List Nat)
    (ctrls : List LogiCtrl) (k v : String)
    (h : k ∉ ctrls.map (fun c => c.text_id)) :
    logi_setup_one applyF reg ctrls k v = some (ctrls, reg, []) := by
  unfold logi_setup_one logi_find_ctrl
  rw [find_none_of_not_mem (fun c => c.text_id) ctrls k h]

theorem v4l2_setup_ctrls_cons (echo : Nat → Int → Option Int) (ctrls : List V4L2Ctrl)
    (kv : String × String) (rest : List (String × String)) :
    v4l2_setup_ctrls echo ctrls (kv :: rest)
      = (v4l2_setup_one echo ctrls kv.1 kv.2).bind (fun r1 =>
          (v4l2_setup_ctrls echo r1.1 rest).bind (fun r2 =>
            some (r2.1, r1.2 ++ r2.2))) := rfl

theorem v4l2_setup_ctrls_cons_skip (echo : Nat → Int → Option Int)
    (ctrls : List V4L2Ctrl) (kv : String × String) (rest : List (String × String))
    (hskip : v4l2_setup_one echo ctrls kv.1 kv.2 = some (ctrls, [])) :
    v4l2_setup_ctrls echo ctrls (kv :: rest) = v4l2_setup_ctrls echo ctrls rest := by
  rw [v4l2_setup_ctrls_cons, hskip]
  simp only [Option.some_bind]
  cases h2 : v4l2_setup_ctrls echo ctrls rest with
  | none => rfl
  | some r2 => simp

theorem kiyo_setup_go_cons (ctrls : List KiyoCtrl) (kv : String × String)
    (rest : List (String × String)) :
    kiyo_setup_go ctrls (kv :: rest)
      = ((kiyo_setup_go (kiyo_setup_one ctrls kv.1 kv.2).1 rest).1,
         (kiyo_setup_one ctrls kv.1 kv.2).2 ++ (kiyo_setup_go (kiyo_setup_one ctrls kv.1 kv.2).1 rest).2) := rfl

theorem kiyo_setup_go_cons_skip (ctrls : List KiyoCtrl) (kv : String × String)
    (rest : List (String × String))
    (hskip : kiyo_setup_one ctrls kv.1 kv.2 = (ctrls, [])) :
    kiyo_setup_go ctrls (kv :: rest) = kiyo_setup_go ctrls rest := by
  rw [kiyo_setup_go_cons, hskip]
  simp

theorem logi_setup_go_cons (applyF : List Nat → List Nat → List Nat) (reg : List Nat)
    (ctrls : List LogiCtrl) (kv : String × String) (rest : List (String × String)) :
    logi_setup_go applyF reg ctrls (kv :: rest)
      = (logi_setup_one applyF reg ctrls kv.1 kv.2).bind (fun r1 =>
          (logi_setup_go applyF r1.2.1 r1.1 rest).bind (fun r2 =>
            some (r2.1, r2.2.1, r1.2.2 ++ r2.2.2))) := rfl

theorem logi_setup_go_cons_skip (applyF : List Nat → List Nat → List Nat)
    (reg : List Nat) (ctrls : List LogiCtrl) (kv : String × String)
    (rest : List (String × String))
    (hskip : logi_setup_one applyF reg ctrls kv.1 kv.2 = some (ctrls, reg, [])) :
    logi_setup_go applyF reg ctrls (kv :: rest) = logi_setup_go applyF reg ctrls rest := by
  rw [logi_setup_go_cons, hskip]
  simp only [Option.some_bind]
  cases h2 : logi_setup_go applyF reg ctrls rest with
  | none => rfl
  | some r2 => simp

-- Filter invariance: keys owned by no control of a source can be removed
-- from the params map without changing that source's behaviour at all.

theorem v4l2_setup_filter (echo : Nat → Int → Option Int) (p : String × String → Bool) :
    ∀ (params : List (String × String)) (ctrls : List V4L2Ctrl),
      (∀ kv, kv ∈ params → p kv = false → kv.1 ∉ ctrls.map (fun c => c.text_id)) →
      v4l2_setup_ctrls echo ctrls (params.filter p) = v4l2_setup_ctrls echo ctrls params := by
  intro params
  induction params with
  | nil => intro ctrls _; rfl
  | cons kv rest ih =>
    intro ctrls h
    by_cases hp : p kv
    · rw [List.filter_cons, if_pos hp, v4l2_setup_ctrls_cons, v4l2_setup_ctrls_cons]
      cases h1 : v4l2_setup_one echo ctrls kv.1 kv.2 with
      | none => rfl
      | some r1 =>
        have hids := v4l2_setup_one_ids echo ctrls kv.1 kv.2 r1 h1
        have hrest : ∀ kv2, kv2 ∈ rest → p kv2 = false →
            kv2.1 ∉ r1.1.map (fun c => c.text_id) := by
          intro kv2 hm hp2
          rw [hids]
          exact h kv2 (List.mem_cons_of_mem kv hm) hp2
        simp only [Option.some_bind]
        rw [ih r1.1 hrest]
    · rw [List.filter_cons, if_neg hp]
      rw [ih ctrls (fun kv2 hm hp2 => h kv2 (List.mem_cons_of_mem kv hm) hp2)]
      exact (v4l2_setup_ctrls_cons_skip echo ctrls kv rest
        (v4l2_setup_one_skip echo ctrls kv.1 kv.2
          (h kv (List.mem_cons_self kv rest) (by simpa using hp)))).symm

theorem kiyo_setup_go_filter (p : String × String → Bool) :
    ∀ (params : List (String × String)) (ctrls : List KiyoCtrl),
      (∀ kv, kv ∈ params → p kv = false → kv.1 ∉ ctrls.map (fun c => c.text_id)) →
      kiyo_setup_go ctrls (params.filter p) = kiyo_setup_go ctrls params := by
  intro params
  induction params with
  | nil => intro ctrls _; rfl
  | cons kv rest ih =>
    intro ctrls h
    by_cases hp : p kv
    · rw [List.filter_cons, if_pos hp, kiyo_setup_go_cons, kiyo_setup_go_cons]
      have hids : ((kiyo_setup_one ctrls kv.1 kv.2).1).map (fun c => c.text_id)
          = ctrls.map (fun c => c.text_id) := by
        have h2 := congrArg (List.map Prod.fst) (kiyo_setup_one_pairs ctrls kv.1 kv.2)
        rw [List.map_map, List.map_map] at h2
        exact h2
      have hrest : ∀ kv2, kv2 ∈ rest → p kv2 = false →
          kv2.1 ∉ ((kiyo_setup_one ctrls kv.1 kv.2).1).map (fun c => c.text_id) := by
        intro kv2 hm hp2
        rw [hids]
        exact h kv2 (List.mem_cons_of_mem kv hm) hp2
      rw [ih _ hrest]
    · rw [List.filter_cons, if_neg hp]
      rw [ih ctrls (fun kv2 hm hp2 => h kv2 (List.mem_cons_of_mem kv hm) hp2)]
      exact (kiyo_setup_go_cons_skip ctrls kv rest
        (kiyo_setup_one_skip ctrls kv.1 kv.2
          (h kv (List.mem_cons_self kv rest) (by simpa using hp)))).symm

theorem logi_setup_go_filter (applyF : List Nat → List Nat → List Nat)
    (p : String × String → Bool) :
    ∀ (params : List (String × String)) (reg : List Nat) (ctrls : List LogiCtrl),
      (∀ kv, kv ∈ params → p kv = false → kv.1 ∉ ctrls.map (fun c => c.text_id)) →
      logi_setup_go applyF reg ctrls (params.filter p)
        = logi_setup_go applyF reg ctrls params := by
  intro params
  induction params with
  | nil => intro reg ctrls _; rfl
  | cons kv rest ih =>
    intro reg ctrls h
    by_cases hp : p kv
    · rw [List.filter_cons, if_pos hp, logi_setup_go_cons, logi_setup_go_cons]
      cases h1 : logi_setup_one applyF reg ctrls kv.1 kv.2 with
      | none => rfl
      | some r1 =>
        have hids := logi_setup_one_ids applyF reg ctrls kv.1 kv.2 r1 h1
        have hrest : ∀ kv2, kv2 ∈ rest → p kv2 = false →
            kv2.1 ∉ r1.1.map (fun c => c.text_id) := by
          intro kv2 hm hp2
          rw [hids]
          exact h kv2 (List.mem_cons_of_mem kv hm) hp2
        simp only [Option.some_bind]
        rw [ih r1.2.1 r1.1 hrest]
    · rw [List.filter_cons, if_neg hp]
      rw [ih reg ctrls (fun kv2 hm hp2 => h kv2 (List.mem_cons_of_mem kv hm) hp2)]
      exact (logi_setup_go_cons_skip applyF reg ctrls kv rest
        (logi_setup_one_skip applyF reg ctrls kv.1 kv.2
          (h kv (List.mem_cons_self kv rest) (by simpa using hp)))).symm

theorem kiyo_setup_ctrls_filter (st : KiyoState) (p : String × String → Bool)
    (params : List (String × String))
    (h : ∀ kv, kv ∈ params → p kv = false → kv.1 ∉ st.ctrls.map (fun c => c.text_id)) :
    kiyo_setup_ctrls st (params.filter p) = kiyo_setup_ctrls st params := by
  unfold kiyo_setup_ctrls
  split
  · rw [kiyo_setup_go_filter p params st.ctrls h]
  · rfl

theorem logi_setup_ctrls_filter (applyF : List Nat → List Nat → List Nat)
    (st : LogiState) (reg : List Nat) (p : String × String → Bool)
    (params : List (String × String))
    (h : ∀ kv, kv ∈ params → p kv = false → kv.1 ∉ st.ctrls.map (fun c => c.text_id)) :
    logi_setup_ctrls applyF st reg (params.filter p)
      = logi_setup_ctrls applyF st reg params := by
  unfold logi_setup_ctrls
  split
  · rw [logi_setup_go_filter applyF p params reg st.ctrls h]
  · rfl


-- Only the aggregator emits the batched unknown-controls warning; no
-- source setup ever does.

/-- Recogniser of the aggregator's batched unknown-controls warning. -/
def isUnknownWarn : Event → Bool
  | .warnUnknown _ => true
  | _ => false

theorem v4l2_do_set_noUnknown (echo : Nat → Int → Option Int) (ctrls : List V4L2Ctrl)
    (ctrl : V4L2Ctrl) (k v : String) (iv : Int) :
    ((v4l2_do_set echo ctrls ctrl k v iv).2).countP isUnknownWarn = 0 := by
  unfold v4l2_do_set
  split
  · rfl
  · split
    · rfl
    · rfl

theorem v4l2_setup_one_noUnknown (echo : Nat → Int → Option Int)
    (ctrls : List V4L2Ctrl) (k v : String) (r : List V4L2Ctrl × List Event)
    (h : v4l2_setup_one echo ctrls k v = some r) :
    r.2.countP isUnknownWarn = 0 := by
  unfold v4l2_setup_one at h
  split at h
  · injection h with h1
    rw [← h1]
    rfl
  · split at h
    · split at h
      · cases h
      · injection h with h1
        rw [← h1]
        exact v4l2_do_set_noUnknown _ _ _ _ _ _
    · split at h
      · injection h with h1
        rw [← h1]
        exact v4l2_do_set_noUnknown _ _ _ _ _ _
      · split at h
        · split at h
          · cases h
          · split at h
            · injection h with h1
              rw [← h1]
              rfl
            · injection h with h1
              rw [← h1]
              exact v4l2_do_set_noUnknown _ _ _ _ _ _
        · injection h with h1
          rw [← h1]
          rfl

theorem v4l2_setup_ctrls_noUnknown (echo : Nat → Int → Option Int) :
    ∀ (params : List (String × String)) (ctrls : List V4L2Ctrl)
      (r : List V4L2Ctrl × List Event),
      v4l2_setup_ctrls echo ctrls params = some r →
      r.2.countP isUnknownWarn = 0 := by
  intro params
  induction params with
  | nil =>
    intro ctrls r h
    injection h with h1
    rw [← h1]
    rfl
  | cons kv rest ih =>
    intro ctrls r h
    simp only [v4l2_setup_ctrls] at h
    cases h1 : v4l2_setup_one echo ctrls kv.1 kv.2 with
    | none => simp only [h1, Option.none_bind] at h; exact Option.noConfusion h
    | some r1 =>
      simp only [h1, Option.some_bind] at h
      cases h2 : v4l2_setup_ctrls echo r1.1 rest with
      | none => simp only [h2, Option.none_bind] at h; exact Option.noConfusion h
      | some r2 =>
        simp only [h2, Option.some_bind] at h
        injection h with h3
        rw [← h3]
        show (r1.2 ++ r2.2).countP isUnknownWarn = 0
        rw [List.countP_append, v4l2_setup_one_noUnknown echo ctrls kv.1 kv.2 r1 h1,
          ih r1.1 r2 h2]

theorem kiyo_setup_one_noUnknown (ctrls : List KiyoCtrl) (k v : String) :
    ((kiyo_setup_one ctrls k v).2).countP isUnknownWarn = 0 := by
  unfold kiyo_setup_one
  split
  · rfl
  · split
    · rfl
    · rename_i ctrl m hm
      show ((match m.before with
        | some b => if b.isEmpty then [] else [Event.xuWrite EU1_SET_ISP b]
        | none => []) ++ [Event.xuWrite EU1_SET_ISP m.value]).countP isUnknownWarn = 0
      cases m.before with
      | none => rfl
      | some b =>
        show ((if b.isEmpty then [] else [Event.xuWrite EU1_SET_ISP b])
          ++ [Event.xuWrite EU1_SET_ISP m.value]).countP isUnknownWarn = 0
        by_cases hb : b.isEmpty
        · rw [if_pos hb]
          rfl
        · rw [if_neg hb]
          rfl

theorem kiyo_setup_go_noUnknown :
    ∀ (params : List (String × String)) (ctrls : List KiyoCtrl),
      ((kiyo_setup_go ctrls params).2).countP isUnknownWarn = 0 := by
  intro params
  induction params with
  | nil => intro ctrls; rfl
  | cons kv rest ih =>
    intro ctrls
    show (((kiyo_setup_one ctrls kv.1 kv.2).2
        ++ (kiyo_setup_go (kiyo_setup_one ctrls kv.1 kv.2).1 rest).2)).countP isUnknownWarn = 0
    rw [List.countP_append, kiyo_setup_one_noUnknown ctrls kv.1 kv.2,
      ih (kiyo_setup_one ctrls kv.1 kv.2).1]

theorem kiyo_setup_ctrls_noUnknown (st : KiyoState) (params : List (String × String)) :
    ((kiyo_setup_ctrls st params).2).countP isUnknownWarn = 0 := by
  unfold kiyo_setup_ctrls
  split
  · show ((kiyo_setup_go st.ctrls params).2 ++ [Event.xuWrite EU1_SET_ISP SAVE]).countP
        isUnknownWarn = 0
    rw [List.countP_append, kiyo_setup_go_noUnknown params st.ctrls]
    rfl
  · rfl

theorem logi_write_verify_noUnknown (applyF : List Nat → List Nat → List Nat)
    (reg : List Nat) (ctrls : List LogiCtrl) (ctrl : LogiCtrl) (k : String) (iv : Int)
    (r : List LogiCtrl × List Nat × List Event)
    (h : logi_write_verify applyF reg ctrls ctrl k iv = some r) :
    r.2.2.countP isUnknownWarn = 0 := by
  unfold logi_write_verify at h
  split at h
  · cases h
  · split at h
    · injection h with h1
      rw [← h1]
      rfl
    · injection h with h1
      rw [← h1]
      rfl

theorem logi_setup_one_noUnknown (applyF : List Nat → List Nat → List Nat)
    (reg : List Nat) (ctrls : List LogiCtrl) (k v : String)
    (r : List LogiCtrl × List Nat × List Event)
    (h : logi_setup_one applyF reg ctrls k v = some r) :
    r.2.2.countP isUnknownWarn = 0 := by
  unfold logi_setup_one at h
  split at h
  · injection h with h1
    rw [← h1]
    rfl
  · split at h
    · split at h
      · cases h
      · split at h
        · injection h with h1
          rw [← h1]
          rfl
        · exact logi_write_verify_noUnknown _ _ _ _ _ _ _ h
    · split at h
      · split at h
        · cases h
        · exact logi_write_verify_noUnknown _ _ _ _ _ _ _ h
      · injection h with h1
        rw [← h1]
        rfl

theorem logi_setup_go_noUnknown (applyF : List Nat → List Nat → List Nat) :
    ∀ (params : List (String × String)) (reg : List Nat) (ctrls : List LogiCtrl)
      (r : List LogiCtrl × List Nat × List Event),
      logi_setup_go applyF reg ctrls params = some r →
      r.2.2.countP isUnknownWarn = 0 := by
  intro params
  induction params with
  | nil =>
    intro reg ctrls r h
    injection h with h1
    rw [← h1]
    rfl
  | cons kv rest ih =>
    intro reg ctrls r h
    simp only [logi_setup_go] at h
    cases h1 : logi_setup_one applyF reg ctrls kv.1 kv.2 with
    | none => simp only [h1, Option.none_bind] at h; exact Option.noConfusion h
    | some r1 =>
      simp only [h1, Option.some_bind] at h
      cases h2 : logi_setup_go applyF r1.2.1 r1.1 rest with
      | none => simp only [h2, Option.none_bind] at h; exact Option.noConfusion h
      | some r2 =>
        simp only [h2, Option.some_bind] at h
        injection h with h3
        rw [← h3]
        show (r1.2.2 ++ r2.2.2).countP isUnknownWarn = 0
        rw [List.countP_append, logi_setup_one_noUnknown applyF reg ctrls kv.1 kv.2 r1 h1,
          ih r1.2.1 r1.1 r2 h2]

theorem logi_setup_ctrls_noUnknown (applyF : List Nat → List Nat → List Nat)
    (st : LogiState) (reg : List Nat) (params : List (String × String))
    (r : LogiState × List Nat × List Event)
    (h : logi_setup_ctrls applyF st reg params = some r) :
    r.2.2.countP isUnknownWarn = 0 := by
  unfold logi_setup_ctrls at h
  split at h
  · cases h1 : logi_setup_go applyF reg st.ctrls params with
    | none => simp only [h1, Option.none_bind] at h; exact Option.noConfusion h
    | some r1 =>
      simp only [h1, Option.some_bind] at h
      injection h with h2
      rw [← h2]
      exact logi_setup_go_noUnknown applyF params reg st.ctrls r1 h1
  · injection h with h2
    rw [← h2]
    rfl

/-- The union of the textual ids of every source's controls. -/
def camera_known_ids (st : CameraState) : List String :=
  (camera_get_ctrls st).map (fun c => c.text_id)

/-- The batch of unknown keys the aggregator reports at the end of a
`setup_ctrls` call: the params keys, deduplicated as a Python set, minus
the union of all sources' ids. -/
def camera_unknown_keys (st : CameraState) (params : List (String × String)) : List String :=
  dedupKeys ((params.map Prod.fst).filter (fun k => !((camera_known_ids st).contains k)))

theorem camera_known_split (st : CameraState) :
    camera_known_ids st
      = st.v4l2.map (fun c => c.text_id) ++ st.kiyo.ctrls.map (fun c => c.text_id)
        ++ st.logi.ctrls.map (fun c => c.text_id) := by
  unfold camera_known_ids camera_get_ctrls
  simp only [List.map_append, List.map_map, List.append_assoc]
  rfl

/-- Claim C5: every id in the params map owned by some source is handled by
that source exactly as if the unknown ids were not present at all — the
whole run only differs from the run on the known-restricted map by one
batched unknown-controls warning appended after all sources' events — and,
whenever the call completes, that batched warning is emitted exactly once
when an unknown id exists (never otherwise), as the last event, naming
exactly the keys owned by no source. Unknown ids therefore never prevent
the valid entries from being applied and never abort the batch. -/
theorem c5_unknown_ids_batched_once (echo : Nat → Int → Option Int)
    (applyF : List Nat → List Nat → List Nat) (st : CameraState) (reg : List Nat)
    (params : List (String × String)) :
    camera_setup_ctrls echo applyF st reg params
      = (camera_setup_ctrls echo applyF st reg
          (params.filter (fun kv => (camera_known_ids st).contains kv.1))).map
          (fun r => (r.1, r.2.1, r.2.2
            ++ (if (camera_unknown_keys st params).isEmpty then []
                else [Event.warnUnknown (camera_unknown_keys st params)])))
    ∧ (∀ st2 reg2 evs,
        camera_setup_ctrls echo applyF st reg params = some (st2, reg2, evs) →
        evs.countP isUnknownWarn
            = (if (camera_unknown_keys st params).isEmpty then 0 else 1)
          ∧ ((camera_unknown_keys st params).isEmpty = false →
              evs.getLast? = some (Event.warnUnknown (camera_unknown_keys st params)))) := by
  have hnotmem : ∀ kv : String × String, kv ∈ params →
      (camera_known_ids st).contains kv.1 = false → kv.1 ∉ camera_known_ids st := by
    intro kv _ hc hmem
    have h2 : (camera_known_ids st).contains kv.1 = true := List.elem_iff.mpr hmem
    rw [hc] at h2
    exact Bool.noConfusion h2
  have hsplit := camera_known_split st
  have hv : v4l2_setup_ctrls echo st.v4l2
        (params.filter (fun kv => (camera_known_ids st).contains kv.1))
      = v4l2_setup_ctrls echo st.v4l2 params := by
    apply v4l2_setup_filter
    intro kv hm hp hmem
    exact hnotmem kv hm hp
      (by rw [hsplit]; exact List.mem_append_left _ (List.mem_append_left _ hmem))
  have hkiyo : kiyo_setup_ctrls st.kiyo
        (params.filter (fun kv => (camera_known_ids st).contains kv.1))
      = kiyo_setup_ctrls st.kiyo params := by
    apply kiyo_setup_ctrls_filter
    intro kv hm hp hmem
    exact hnotmem kv hm hp
      (by rw [hsplit]; exact List.mem_append_left _ (List.mem_append_right _ hmem))
  have hlogi : logi_setup_ctrls applyF st.logi reg
        (params.filter (fun kv => (camera_known_ids st).contains kv.1))
      = logi_setup_ctrls applyF st.logi reg params := by
    apply logi_setup_ctrls_filter
    intro kv hm hp hmem
    exact hnotmem kv hm hp (by rw [hsplit]; exact List.mem_append_right _ hmem)
  have hfilz : (((params.filter (fun kv => (camera_known_ids st).contains kv.1)).map
        Prod.fst).filter (fun k => !((camera_known_ids st).contains k))) = [] := by
    rw [List.filter_eq_nil_iff]
    intro a ha
    obtain ⟨kv, hkv, rfl⟩ := List.mem_map.mp ha
    have hkeep := (List.mem_filter.mp hkv).2
    intro hcon
    have hfalse : (camera_known_ids st).contains kv.1 = false := by simpa using hcon
    rw [hkeep] at hfalse
    exact Bool.noConfusion hfalse
  constructor
  · unfold camera_setup_ctrls
    simp only [hv, hkiyo, hlogi]
    cases hrv : v4l2_setup_ctrls echo st.v4l2 params with
    | none => rfl
    | some rv =>
      simp only [Option.some_bind]
      cases hrl : logi_setup_ctrls applyF st.logi reg params with
      | none => rfl
      | some rl =>
        simp only [Option.some_bind, Option.map_some']
        have hids2 : (camera_get_ctrls ⟨rv.1, (kiyo_setup_ctrls st.kiyo params).1, rl.1⟩).map
            (fun c => c.text_id) = camera_known_ids st := by
          have h1 := v4l2_setup_ctrls_ids echo params st.v4l2 rv hrv
          have h2 := kiyo_setup_ctrls_ids st.kiyo params
          have h3 := (logi_setup_ctrls_ids applyF st.logi reg params rl hrl).1
          rw [show (camera_get_ctrls ⟨rv.1, (kiyo_setup_ctrls st.kiyo params).1, rl.1⟩).map
              (fun c => c.text_id)
            = camera_known_ids ⟨rv.1, (kiyo_setup_ctrls st.kiyo params).1, rl.1⟩ from rfl]
          rw [camera_known_split, hsplit]
          dsimp only
          rw [h1, h2, h3]
        simp only [hids2]
        have hu : camera_unknown_keys st params
            = dedupKeys ((params.map Prod.fst).filter
                (fun k => !((camera_known_ids st).contains k))) := rfl
        simp only [← hu, hfilz]
        simp [dedupKeys]
  · intro st2 reg2 evs h
    unfold camera_setup_ctrls at h
    cases hrv : v4l2_setup_ctrls echo st.v4l2 params with
    | none => simp only [hrv, Option.none_bind] at h; exact Option.noConfusion h
    | some rv =>
      simp only [hrv, Option.some_bind] at h
      cases hrl : logi_setup_ctrls applyF st.logi reg params with
      | none => simp only [hrl, Option.none_bind] at h; exact Option.noConfusion h
      | some rl =>
        simp only [hrl, Option.some_bind] at h
        have hids2 : (camera_get_ctrls ⟨rv.1, (kiyo_setup_ctrls st.kiyo params).1, rl.1⟩).map
            (fun c => c.text_id) = camera_known_ids st := by
          have h1 := v4l2_setup_ctrls_ids echo params st.v4l2 rv hrv
          have h2 := kiyo_setup_ctrls_ids st.kiyo params
          have h3 := (logi_setup_ctrls_ids applyF st.logi reg params rl hrl).1
          rw [show (camera_get_ctrls ⟨rv.1, (kiyo_setup_ctrls st.kiyo params).1, rl.1⟩).map
              (fun c => c.text_id)
            = camera_known_ids ⟨rv.1, (kiyo_setup_ctrls st.kiyo params).1, rl.1⟩ from rfl]
          rw [camera_known_split, hsplit]
          dsimp only
          rw [h1, h2, h3]
        simp only [hids2] at h
        have hu : camera_unknown_keys st params
            = dedupKeys ((params.map Prod.fst).filter
                (fun k => !((camera_known_ids st).contains k))) := rfl
        simp only [← hu] at h
        injection h with h3
        have hevs : evs = rv.2 ++ (kiyo_setup_ctrls st.kiyo params).2 ++ rl.2.2
            ++ (if (camera_unknown_keys st params).isEmpty then []
                else [Event.warnUnknown (camera_unknown_keys st params)]) :=
          (congrArg (fun t : CameraState × List Nat × List Event => t.2.2) h3).symm
    
        constructor
        · rw [hevs]
          simp only [List.countP_append]
          rw [v4l2_setup_ctrls_noUnknown echo params st.v4l2 rv hrv,
            kiyo_setup_ctrls_noUnknown st.kiyo params,
            logi_setup_ctrls_noUnknown applyF st.logi reg params rl hrl]
          by_cases hue : (camera_unknown_keys st params).isEmpty
          · rw [if_pos hue, if_pos hue]
            rfl
          · rw [if_neg hue, if_neg hue]
            rfl
        · intro hue
          rw [hevs, if_neg (by rw [hue]; exact Bool.noConfusion)]
          exact List.getLast?_concat _

/-- Camera with one native integer control (brightness) for the C5
witness; both vendor sources unsupported. -/
def c5_state : CameraState :=
  ⟨v4l2_get_device_controls [qrecBrightness], kiyo_init false,
   logi_init false (fun _ _ => [])⟩

/-- A params map mixing one known id and one unknown id. -/
def c5_params : List (String × String) :=
  [("brightness", "128"), ("nonexistent_ctrl", "x")]

/-- Claim C5 witness: on the concrete camera, the batch
`brightness=128, nonexistent_ctrl=x` completes with exactly one
unknown-controls warning naming exactly `nonexistent_ctrl`, emitted last. -/
theorem c5_unknown_ids_batched_once_witness :
    camera_unknown_keys c5_state c5_params = ["nonexistent_ctrl"]
    ∧ (camera_setup_ctrls honestEcho honestApply c5_state [] c5_params).map
        (fun r => (r.2.2.countP isUnknownWarn, r.2.2.getLast?))
      = some (1, some (Event.warnUnknown ["nonexistent_ctrl"])) := by
  constructor
  · rfl
  · cases hres : camera_setup_ctrls honestEcho honestApply c5_state [] c5_params with
    | none => exact absurd hres (by decide)
    | some r =>
      have h2 := (c5_unknown_ids_batched_once honestEcho honestApply c5_state [] c5_params).2
        r.1 r.2.1 r.2.2 (by rw [hres])
      have hu : camera_unknown_keys c5_state c5_params = ["nonexistent_ctrl"] := rfl
      rw [Option.map_some']
      refine congrArg some (Prod.ext ?_ ?_)
      · have hc := h2.1
        rw [hu] at hc
        simpa using hc
      · have hl := h2.2 (by rw [hu]; rfl)
        rw [hu] at hl
        exact hl


-- Kiyo source: the events of a setup pass depend only on the controls'
-- text ids and menus, which the pass preserves, so the event stream over a
-- whole params map decomposes into one contribution per pair, followed by
-- the single trailing save frame.

theorem kiyo_find_menu_congr :
    ∀ (l1 l2 : List KiyoCtrl),
      l1.map (fun c => (c.text_id, c.menu)) = l2.map (fun c => (c.text_id, c.menu)) →
      ∀ k, (kiyo_find_ctrl l1 k).map (fun c => c.menu)
        = (kiyo_find_ctrl l2 k).map (fun c => c.menu) := by
  intro l1
  induction l1 with
  | nil =>
    intro l2 h k
    cases l2 with
    | nil => rfl
    | cons y ys => exact absurd h (by simp)
  | cons x xs ih =>
    intro l2 h k
    cases l2 with
    | nil => exact absurd h (by simp)
    | cons y ys =>
      simp only [List.map_cons, List.cons.injEq] at h
      obtain ⟨hxy, hrest⟩ := h
      have htid : x.text_id = y.text_id := congrArg Prod.fst hxy
      have hmenu : x.menu = y.menu := congrArg Prod.snd hxy
      unfold kiyo_find_ctrl
      by_cases hk : (x.text_id == k) = true
      · rw [List.find?_cons_of_pos xs
            (show (fun c : KiyoCtrl => c.text_id == k) x = true from hk),
          List.find?_cons_of_pos ys
            (show (fun c : KiyoCtrl => c.text_id == k) y = true from by
              show (y.text_id == k) = true
              rw [← htid]
              exact hk)]
        simp [hmenu]
      · rw [List.find?_cons_of_neg xs
            (show ¬ (fun c : KiyoCtrl => c.text_id == k) x = true from hk),
          List.find?_cons_of_neg ys
            (show ¬ (fun c : KiyoCtrl => c.text_id == k) y = true from by
              show ¬ (y.text_id == k) = true
              rw [← htid]
              exact hk)]
        exact ih ys hrest k

theorem kiyo_setup_one_events_congr (l1 l2 : List KiyoCtrl)
    (h : l1.map (fun c => (c.text_id, c.menu)) = l2.map (fun c => (c.text_id, c.menu)))
    (k v : String) : (kiyo_setup_one l1 k v).2 = (kiyo_setup_one l2 k v).2 := by
  have hf := kiyo_find_menu_congr l1 l2 h k
  unfold kiyo_setup_one
  cases h1 : kiyo_find_ctrl l1 k with
  | none =>
    cases h2 : kiyo_find_ctrl l2 k with
    | none => rfl
    | some c2 => rw [h1, h2] at hf; cases hf
  | some c1 =>
    cases h2 : kiyo_find_ctrl l2 k with
    | none => rw [h1, h2] at hf; cases hf
    | some c2 =>
      rw [h1, h2] at hf
      simp only [Option.map_some'] at hf
      injection hf with hm2
      have hm3 : c1.menu = c2.menu := hm2
      show (match kiyo_find_menu c1.menu v with
          | none => (l1, [Event.warn "KiyoProCtrls unknown menu value"])
          | some m =>
            (updateFirst (fun c => c.text_id == k)
              (fun c => { c with value := some (PyVal.str m.text_id) }) l1,
             (match m.before with
              | some b => if b.isEmpty then [] else [Event.xuWrite EU1_SET_ISP b]
              | none => []) ++ [Event.xuWrite EU1_SET_ISP m.value])).2
        = (match kiyo_find_menu c2.menu v with
          | none => (l2, [Event.warn "KiyoProCtrls unknown menu value"])
          | some m =>
            (updateFirst (fun c => c.text_id == k)
              (fun c => { c with value := some (PyVal.str m.text_id) }) l2,
             (match m.before with
              | some b => if b.isEmpty then [] else [Event.xuWrite EU1_SET_ISP b]
              | none => []) ++ [Event.xuWrite EU1_SET_ISP m.value])).2
      rw [hm3]
      cases kiyo_find_menu c2.menu v <;> rfl

theorem kiyo_setup_go_events :
    ∀ (params : List (String × String)) (ctrls : List KiyoCtrl),
      (kiyo_setup_go ctrls params).2
        = params.flatMap (fun kv => (kiyo_setup_one ctrls kv.1 kv.2).2) := by
  intro params
  induction params with
  | nil => intro ctrls; rfl
  | cons kv rest ih =>
    intro ctrls
    show ((kiyo_setup_one ctrls kv.1 kv.2).2
        ++ (kiyo_setup_go (kiyo_setup_one ctrls kv.1 kv.2).1 rest).2)
      = (kv :: rest).flatMap (fun kv => (kiyo_setup_one ctrls kv.1 kv.2).2)
    rw [ih (kiyo_setup_one ctrls kv.1 kv.2).1, List.flatMap_cons]
    congr 1
    refine congrArg (List.flatMap rest) (funext (fun kv2 => ?_))
    exact kiyo_setup_one_events_congr _ _ (kiyo_setup_one_pairs ctrls kv.1 kv.2) kv2.1 kv2.2

/-- Recogniser of the Kiyo save-to-persistent-storage write. -/
def isSaveWrite : Event → Bool
  | .xuWrite s f => s == EU1_SET_ISP && f == SAVE
  | _ => false

/-- No menu frame of the given controls is the save frame (true of the
declared Kiyo control set). -/
def kiyoNoSave (ctrls : List KiyoCtrl) : Prop :=
  ∀ c, c ∈ ctrls → ∀ m, m ∈ c.menu →
    m.value ≠ SAVE ∧ ∀ b, m.before = some b → b ≠ SAVE

instance (ctrls : List KiyoCtrl) : Decidable (kiyoNoSave ctrls) := by
  unfold kiyoNoSave
  infer_instance

theorem kiyo_setup_one_noSave (ctrls : List KiyoCtrl) (k v : String)
    (hns : kiyoNoSave ctrls) :
    ((kiyo_setup_one ctrls k v).2).countP isSaveWrite = 0 := by
  unfold kiyo_setup_one
  split
  · rfl
  · rename_i c h1
    split
    · rfl
    · rename_i m h2
      have hc : c ∈ ctrls := List.mem_of_find?_eq_some h1
      have hm : m ∈ c.menu := List.mem_of_find?_eq_some h2
      have hmv := hns c hc m hm
      have hvalfalse : isSaveWrite (Event.xuWrite EU1_SET_ISP m.value) = false := by
        simp [isSaveWrite, hmv.1]
      show ((match m.before with
        | some b => if b.isEmpty then [] else [Event.xuWrite EU1_SET_ISP b]
        | none => []) ++ [Event.xuWrite EU1_SET_ISP m.value]).countP isSaveWrite = 0
      rw [List.countP_append]
      cases hb : m.before with
      | none => simp [List.countP_cons, hvalfalse]
      | some b =>
        have hbns : b ≠ SAVE := hmv.2 b hb
        have hbfalse : isSaveWrite (Event.xuWrite EU1_SET_ISP b) = false := by
          simp [isSaveWrite, hbns]
        by_cases hbe : b.isEmpty
        · simp [hbe, List.countP_cons, hvalfalse]
        · simp [hbe, List.countP_cons, hvalfalse, hbfalse]

theorem kiyoNoSave_congr (l1 l2 : List KiyoCtrl)
    (h : l1.map (fun c => (c.text_id, c.menu)) = l2.map (fun c => (c.text_id, c.menu)))
    (hns : kiyoNoSave l1) : kiyoNoSave l2 := by
  intro c hc m hm
  have hmem : (c.text_id, c.menu) ∈ l2.map (fun c => (c.text_id, c.menu)) :=
    List.mem_map_of_mem _ hc
  rw [← h] at hmem
  obtain ⟨c1, hc1, heq⟩ := List.mem_map.mp hmem
  have hmenu : c1.menu = c.menu := congrArg Prod.snd heq
  exact hns c1 hc1 m (hmenu ▸ hm)

theorem kiyo_setup_go_noSave :
    ∀ (params : List (String × String)) (ctrls : List KiyoCtrl),
      kiyoNoSave ctrls → ((kiyo_setup_go ctrls params).2).countP isSaveWrite = 0 := by
  intro params
  induction params with
  | nil => intro ctrls _; rfl
  | cons kv rest ih =>
    intro ctrls hns
    show (((kiyo_setup_one ctrls kv.1 kv.2).2
        ++ (kiyo_setup_go (kiyo_setup_one ctrls kv.1 kv.2).1 rest).2)).countP isSaveWrite = 0
    rw [List.countP_append, kiyo_setup_one_noSave ctrls kv.1 kv.2 hns,
      ih (kiyo_setup_one ctrls kv.1 kv.2).1
        (kiyoNoSave_congr ctrls _ (kiyo_setup_one_pairs ctrls kv.1 kv.2).symm hns)]

/-- Claim C4: on a supported device whose control menus carry no frame
equal to the save frame (true of the declared Kiyo control set), every
`setup_ctrls` invocation writes the save frame exactly once, as the very
last write of the batch — after all controls have been processed, not once
per control — and every selected menu entry that carries a (non-empty)
preparatory frame has that frame written immediately before the entry's
main frame. -/
theorem c4_kiyo_pre_before_main_save_once (st : KiyoState)
    (params : List (String × String)) (hsup : st.supported = true)
    (hns : kiyoNoSave st.ctrls) :
    ((kiyo_setup_ctrls st params).2).countP isSaveWrite = 1
    ∧ ((kiyo_setup_ctrls st params).2).getLast? = some (Event.xuWrite EU1_SET_ISP SAVE)
    ∧ ∀ k v c m b, (k, v) ∈ params → kiyo_find_ctrl st.ctrls k = some c →
        kiyo_find_menu c.menu v = some m → m.before = some b → b ≠ [] →
        ∃ pre post, (kiyo_setup_ctrls st params).2
          = pre ++ [Event.xuWrite EU1_SET_ISP b, Event.xuWrite EU1_SET_ISP m.value] ++ post := by
  have hctrls : kiyo_setup_ctrls st params
      = ({ st with ctrls := (kiyo_setup_go st.ctrls params).1 },
         (kiyo_setup_go st.ctrls params).2 ++ [Event.xuWrite EU1_SET_ISP SAVE]) := by
    unfold kiyo_setup_ctrls
    rw [if_pos hsup]
  refine ⟨?_, ?_, ?_⟩
  · rw [hctrls]
    show ((kiyo_setup_go st.ctrls params).2 ++ [Event.xuWrite EU1_SET_ISP SAVE]).countP
      isSaveWrite = 1
    rw [List.countP_append, kiyo_setup_go_noSave params st.ctrls hns]
    rfl
  · rw [hctrls]
    exact List.getLast?_concat _
  · intro k v c m b hkv hfc hfm hb hbne
    obtain ⟨l1, l2, hsplit2⟩ := List.append_of_mem hkv
    have hbe : b.isEmpty = false := by
      cases b with
      | nil => exact absurd rfl hbne
      | cons x xs => rfl
    have hone : (kiyo_setup_one st.ctrls k v).2
        = [Event.xuWrite EU1_SET_ISP b, Event.xuWrite EU1_SET_ISP m.value] := by
      unfold kiyo_setup_one
      rw [hfc]
      show (match kiyo_find_menu c.menu v with
          | none => (st.ctrls, [Event.warn "KiyoProCtrls unknown menu value"])
          | some m =>
            (updateFirst (fun c2 => c2.text_id == k)
              (fun c2 => { c2 with value := some (PyVal.str m.text_id) }) st.ctrls,
             (match m.before with
              | some b2 => if b2.isEmpty then [] else [Event.xuWrite EU1_SET_ISP b2]
              | none => []) ++ [Event.xuWrite EU1_SET_ISP m.value])).2
        = [Event.xuWrite EU1_SET_ISP b, Event.xuWrite EU1_SET_ISP m.value]
      rw [hfm]
      show ((match m.before with
          | some b2 => if b2.isEmpty then [] else [Event.xuWrite EU1_SET_ISP b2]
          | none => []) ++ [Event.xuWrite EU1_SET_ISP m.value])
        = [Event.xuWrite EU1_SET_ISP b, Event.xuWrite EU1_SET_ISP m.value]
      rw [hb]
      show ((if b.isEmpty then [] else [Event.xuWrite EU1_SET_ISP b])
          ++ [Event.xuWrite EU1_SET_ISP m.value])
        = [Event.xuWrite EU1_SET_ISP b, Event.xuWrite EU1_SET_ISP m.value]
      rw [hbe]
      rfl
    rw [hctrls]
    refine ⟨(l1.flatMap (fun kv => (kiyo_setup_one st.ctrls kv.1 kv.2).2)),
      (l2.flatMap (fun kv => (kiyo_setup_one st.ctrls kv.1 kv.2).2))
        ++ [Event.xuWrite EU1_SET_ISP SAVE], ?_⟩
    show (kiyo_setup_go st.ctrls params).2 ++ [Event.xuWrite EU1_SET_ISP SAVE] = _
    rw [kiyo_setup_go_events params st.ctrls, hsplit2, List.flatMap_append,
      List.flatMap_cons, hone]
    simp [List.append_assoc]

/-- Claim C4 witness: setting the Kiyo FOV control to medium writes exactly
the preparatory frame, the main frame, and one trailing save frame. -/
theorem c4_kiyo_pre_before_main_save_once_witness :
    ((kiyo_setup_ctrls (kiyo_init true) [("kiyo_pro_fov", "medium")]).2).countP
        isSaveWrite = 1
    ∧ ((kiyo_setup_ctrls (kiyo_init true) [("kiyo_pro_fov", "medium")]).2).getLast?
        = some (Event.xuWrite EU1_SET_ISP SAVE)
    ∧ ∃ pre post, (kiyo_setup_ctrls (kiyo_init true) [("kiyo_pro_fov", "medium")]).2
        = pre ++ [Event.xuWrite EU1_SET_ISP FOV_MEDIUM_PRE,
                  Event.xuWrite EU1_SET_ISP FOV_MEDIUM] ++ post := by
  have h := c4_kiyo_pre_before_main_save_once (kiyo_init true)
    [("kiyo_pro_fov", "medium")] rfl (by decide)
  refine ⟨h.1, h.2.1, ?_⟩
  have h3 := h.2.2 "kiyo_pro_fov" "medium"
    ⟨"kiyo_pro_fov", "FOV", none,
     [⟨"wide", "Wide", FOV_WIDE, none⟩,
      ⟨"medium", "Medium", FOV_MEDIUM, some FOV_MEDIUM_PRE⟩,
      ⟨"narrow", "Narrow", FOV_NARROW, some FOV_NARROW_PRE⟩]⟩
    ⟨"medium", "Medium", FOV_MEDIUM, some FOV_MEDIUM_PRE⟩ FOV_MEDIUM_PRE
    (by decide) (by decide) (by decide) (by decide) (by decide)
  exact h3

-- Logitech set path: helper facts about the one-byte overwrite.

theorem listSet_get?_eq {α : Type} (a : α) :
    ∀ (l : List α) (i : Nat), i < l.length → (l.set i a).get? i = some a := by
  intro l
  induction l with
  | nil => intro i h; exact absurd h (Nat.not_lt_zero i)
  | cons x xs ih =>
    intro i h
    cases i with
    | zero => rfl
    | succ n => exact ih n (Nat.lt_of_succ_lt_succ h)

theorem listSet_get?_ne {α : Type} (a : α) :
    ∀ (l : List α) (i j : Nat), i ≠ j → (l.set i a).get? j = l.get? j := by
  intro l
  induction l with
  | nil => intro i j _; rfl
  | cons x xs ih =>
    intro i j h
    cases i with
    | zero =>
      cases j with
      | zero => exact absurd rfl h
      | succ m => rfl
    | succ n =>
      cases j with
      | zero => rfl
      | succ m => exact ih n m (fun he => h (congrArg Nat.succ he))

theorem fillBuf_length (len : Nat) (resp : List Nat) : (fillBuf len resp).length = len := by
  unfold fillBuf
  rw [List.length_take, List.length_append, List.length_replicate]
  omega

/-- Claim C3: a Logitech set of an owned control with a valid value (a menu
entry's byte, or a parsed in-range integer) reads the full current register
frame, writes back a frame that differs from it only at the control's
configured offset (where it carries the requested byte), reads the register
again, and compares the byte now at the offset — both sides mapped to menu
entry text ids for menu controls; on mismatch it warns and leaves every
control's stored value unchanged, on match it stores the requested value
(the menu entry's textual id for menu controls, via `logi_view`). -/
theorem c3_logitech_set_one_byte_and_verify
    (applyF : List Nat → List Nat → List Nat) (reg : List Nat)
    (ctrls : List LogiCtrl) (ctrl : LogiCtrl) (k v : String) (iv : Int)
    (hf : logi_find_ctrl ctrls k = some ctrl)
    (hdesired :
      (ctrl.type = "menu" ∧ ∃ ms m, ctrl.menu = some ms ∧ logi_find_menu ms v = some m
        ∧ (m.value : Int) = iv)
      ∨ (ctrl.type = "integer" ∧ pyParseInt v = some iv))
    (hrange : 0 ≤ iv ∧ iv ≤ 255) (hoff : ctrl.offset < ctrl.len) :
    ((logi_written ctrl reg iv).get? ctrl.offset = some iv.toNat
      ∧ ∀ i, i ≠ ctrl.offset →
          (logi_written ctrl reg iv).get? i = (fillBuf ctrl.len reg).get? i)
    ∧ logi_setup_one applyF reg ctrls k v = logi_write_verify applyF reg ctrls ctrl k iv
    ∧ (logi_view ctrl ((fillBuf ctrl.len (applyF reg (logi_written ctrl reg iv))).getD
          ctrl.offset 0 : Nat) ≠ logi_view ctrl iv →
        logi_setup_one applyF reg ctrls k v
          = some (ctrls, applyF reg (logi_written ctrl reg iv),
              [Event.xuGet ctrl.selector (fillBuf ctrl.len reg),
               Event.xuWrite ctrl.selector (logi_written ctrl reg iv),
               Event.xuGet ctrl.selector (fillBuf ctrl.len (applyF reg (logi_written ctrl reg iv))),
               Event.warn "LogitechCtrls readback mismatch"]))
    ∧ (logi_view ctrl ((fillBuf ctrl.len (applyF reg (logi_written ctrl reg iv))).getD
          ctrl.offset 0 : Nat) = logi_view ctrl iv →
        logi_setup_one applyF reg ctrls k v
          = some (updateFirst (fun c => c.text_id == k)
              (fun c => { c with value := some (logi_view ctrl iv) }) ctrls,
              applyF reg (logi_written ctrl reg iv),
              [Event.xuGet ctrl.selector (fillBuf ctrl.len reg),
               Event.xuWrite ctrl.selector (logi_written ctrl reg iv),
               Event.xuGet ctrl.selector (fillBuf ctrl.len (applyF reg (logi_written ctrl reg iv)))])) := by
  have hlen : ctrl.offset < (fillBuf ctrl.len reg).length := by
    rw [fillBuf_length]
    exact hoff
  have ha1 : (logi_written ctrl reg iv).get? ctrl.offset = some iv.toNat := by
    unfold logi_written
    exact listSet_get?_eq _ _ _ hlen
  have ha2 : ∀ i, i ≠ ctrl.offset →
      (logi_written ctrl reg iv).get? i = (fillBuf ctrl.len reg).get? i := by
    intro i hi
    unfold logi_written
    exact listSet_get?_ne _ _ ctrl.offset i (fun he => hi he.symm)
  have hb : logi_setup_one applyF reg ctrls k v
      = logi_write_verify applyF reg ctrls ctrl k iv := by
    unfold logi_setup_one
    simp only [hf]
    rcases hdesired with ⟨ht, ms, m, hms, hfm, hmv⟩ | ⟨ht, hp⟩
    · rw [if_pos ht]
      simp only [hms, hfm]
      rw [hmv]
    · rw [ht]
      rw [if_neg (by decide), if_pos rfl]
      simp only [hp]
  have hrangeneg : ¬ (iv < 0 ∨ 255 < iv) := by omega
  refine ⟨⟨ha1, ha2⟩, hb, ?_, ?_⟩
  · intro hmm2
    rw [hb]
    unfold logi_write_verify
    rw [if_neg hrangeneg, if_pos hmm2]
  · intro heq2
    rw [hb]
    unfold logi_write_verify
    rw [if_neg hrangeneg, if_neg (show ¬ _ ≠ _ from fun hne => hne heq2)]

/-- The declared LED1 frequency control (second element of
`logi_declared_ctrls`). -/
def freqDecl : LogiCtrl :=
  { text_id := "logitech_led1_frequency", name := "LED1 Frequency", type := "integer",
    selector := LOGITECH_PERIPHERAL_LED1_SEL, len := LOGITECH_PERIPHERAL_LED1_LEN,
    offset := LOGITECH_PERIPHERAL_LED1_FREQUENCY_OFFSET,
    value := none, default := none, min := none, max := none, menu := none }

/-- Claim C3 witness: setting the LED1 frequency to 3 with current register
frame `[0,0,0,2,0]` on a device that honours the write: the written frame
changes only byte 3, and after the matching readback the stored value
becomes 3. -/
theorem c3_logitech_set_one_byte_and_verify_witness :
    (logi_written freqDecl [0, 0, 0, 2, 0] 3).get? 3 = some 3
    ∧ logi_setup_one honestApply [0, 0, 0, 2, 0] logi_declared_ctrls
        "logitech_led1_frequency" "3"
      = some (updateFirst (fun c => c.text_id == "logitech_led1_frequency")
          (fun c => { c with value := some (logi_view freqDecl 3) }) logi_declared_ctrls,
          [0, 0, 0, 3, 0],
          [Event.xuGet 9 [0, 0, 0, 2, 0], Event.xuWrite 9 [0, 0, 0, 3, 0],
           Event.xuGet 9 [0, 0, 0, 3, 0]]) := by
  have h := c3_logitech_set_one_byte_and_verify honestApply [0, 0, 0, 2, 0]
    logi_declared_ctrls freqDecl "logitech_led1_frequency" "3" 3 rfl
    (Or.inr ⟨rfl, by decide⟩) (by decide) (by decide)
  refine ⟨h.1.1, ?_⟩
  have h4 := h.2.2.2 (by decide)
  exact h4

-- Menu value resolution: after discovery the stored value is an entry's
-- textual id exactly when the raw numeric value matched some entry.

/-- Resolved-or-raw: the value is some listed entry's textual id, or it is
the raw numeric value and no entry carries that value. -/
def menuValueInv (ms : List V4L2Menu) (val : PyVal) : Prop :=
  (∃ m, m ∈ ms ∧ val = PyVal.str m.text_id)
  ∨ (∃ n, val = PyVal.int n ∧ ∀ m, m ∈ ms → m.value ≠ n)

theorem v4l2_menu_step_inv (qtype : Nat) (mq : List (Int × QMenuRec))
    (acc : List V4L2Menu × PyVal × PyVal) (i : Int)
    (h : menuValueInv acc.1 acc.2.1) :
    menuValueInv ((v4l2_menu_step qtype mq acc i).1) ((v4l2_menu_step qtype mq acc i).2.1) := by
  unfold v4l2_menu_step
  cases hl : lookupMenuQ mq i with
  | none => exact h
  | some mr =>
    rcases h with ⟨m, hm, hv⟩ | ⟨n, hv, hall⟩
    · left
      refine ⟨m, List.mem_append_left _ hm, ?_⟩
      show (if acc.2.1 = PyVal.int (i % (2 ^ 32 : Int))
          then PyVal.str (v4l2_menu_text_id qtype mr) else acc.2.1) = PyVal.str m.text_id
      rw [hv, if_neg (fun hc => PyVal.noConfusion hc)]
    · by_cases he : acc.2.1 = PyVal.int (i % (2 ^ 32 : Int))
      · left
        refine ⟨⟨v4l2_menu_text_id qtype mr, v4l2_menu_text qtype mr, i % (2 ^ 32 : Int)⟩,
          List.mem_append_right _ (List.mem_singleton.mpr rfl), ?_⟩
        show (if acc.2.1 = PyVal.int (i % (2 ^ 32 : Int))
            then PyVal.str (v4l2_menu_text_id qtype mr) else acc.2.1) = _
        rw [if_pos he]
      · right
        refine ⟨n, ?_, ?_⟩
        · show (if acc.2.1 = PyVal.int (i % (2 ^ 32 : Int))
              then PyVal.str (v4l2_menu_text_id qtype mr) else acc.2.1) = PyVal.int n
          rw [if_neg he]
          exact hv
        · intro m hm2
          rcases List.mem_append.mp hm2 with hm3 | hm3
          · exact hall m hm3
          · rw [List.mem_singleton.mp hm3]
            intro hcc
            apply he
            rw [hv]
            show PyVal.int n = PyVal.int (i % (2 ^ 32 : Int))
            rw [← hcc]
  
theorem v4l2_menu_fold_inv (qtype : Nat) (mq : List (Int × QMenuRec)) :
    ∀ (idxs : List Int) (acc : List V4L2Menu × PyVal × PyVal),
      menuValueInv acc.1 acc.2.1 →
      menuValueInv ((idxs.foldl (v4l2_menu_step qtype mq) acc).1)
        ((idxs.foldl (v4l2_menu_step qtype mq) acc).2.1) := by
  intro idxs
  induction idxs with
  | nil => intro acc h; exact h
  | cons i rest ih =>
    intro acc h
    exact ih (v4l2_menu_step qtype mq acc i) (v4l2_menu_step_inv qtype mq acc i h)

theorem v4l2_build_ctrl_menuInv (r : QCtrlRec) (ms : List V4L2Menu)
    (h : (v4l2_build_ctrl r).menu = some ms) :
    menuValueInv ms ((v4l2_build_ctrl r).value) := by
  by_cases ht : r.qtype = 3 ∨ r.qtype = 9
  · simp only [v4l2_build_ctrl, if_pos ht] at h ⊢
    injection h with hms
    rw [← hms]
    exact v4l2_menu_fold_inv r.qtype r.menuq (intRange r.minimum r.maximum)
      ([], PyVal.int (r.gctrl.getD 0), PyVal.int r.default)
      (Or.inr ⟨r.gctrl.getD 0, rfl, fun m hm => absurd hm (List.not_mem_nil m)⟩)
  · simp only [v4l2_build_ctrl, if_neg ht] at h
    exact Option.noConfusion h

-- The reorder pass is a permutation-like splice: membership is preserved.

theorem insertAt_mem {α : Type} (x a : α) :
    ∀ (l : List α) (n : Nat), a ∈ insertAt l n x → a = x ∨ a ∈ l := by
  intro l
  induction l with
  | nil =>
    intro n h
    cases n with
    | zero =>
      rcases List.mem_cons.mp h with h1 | h1
      · exact Or.inl h1
      · exact absurd h1 (List.not_mem_nil a)
    | succ m =>
      rcases List.mem_cons.mp h with h1 | h1
      · exact Or.inl h1
      · exact absurd h1 (List.not_mem_nil a)
  | cons y ys ih =>
    intro n h
    cases n with
    | zero =>
      rcases List.mem_cons.mp h with h1 | h1
      · exact Or.inl h1
      · exact Or.inr h1
    | succ m =>
      rcases List.mem_cons.mp h with h1 | h1
      · exact Or.inr (h1 ▸ List.mem_cons_self y ys)
      · rcases ih m h1 with h2 | h2
        · exact Or.inl h2
        · exact Or.inr (List.mem_cons_of_mem y h2)

theorem eraseIdx_mem {α : Type} (a : α) :
    ∀ (l : List α) (n : Nat), a ∈ l.eraseIdx n → a ∈ l := by
  intro l
  induction l with
  | nil => intro n h; exact absurd h (List.not_mem_nil a)
  | cons y ys ih =>
    intro n h
    cases n with
    | zero => exact List.mem_cons_of_mem y h
    | succ m =>
      rcases List.mem_cons.mp h with h1 | h1
      · exact h1 ▸ List.mem_cons_self y ys
      · exact List.mem_cons_of_mem y (ih m h1)

theorem reorder_step_mem (l : List V4L2Ctrl) (kv : Nat × Nat) (c : V4L2Ctrl)
    (h : c ∈ reorder_step l kv) : c ∈ l := by
  simp only [reorder_step] at h
  split at h
  · split at h
    · split at h
      · rename_i x hget
        rcases insertAt_mem x c _ _ h with h1 | h1
        · exact h1 ▸ List.get?_mem hget
        · exact eraseIdx_mem c l _ h1
      · exact h
    · exact h
  · exact h

theorem v4l2_reorder_mem (l : List V4L2Ctrl) (c : V4L2Ctrl)
    (h : c ∈ v4l2_reorder l) : c ∈ l := by
  have h1 : v4l2_reorder l
      = reorder_step (reorder_step l (V4L2_CID_FOCUS_AUTO, V4L2_CID_FOCUS_ABSOLUTE))
          (V4L2_CID_AUTO_WHITE_BALANCE, V4L2_CID_WHITE_BALANCE_TEMPERATURE) := rfl
  rw [h1] at h
  exact reorder_step_mem _ _ c (reorder_step_mem _ _ c h)

theorem logi_init_one_inv (oracle : Nat → Nat → List Nat) (c0 : LogiCtrl)
    (lms : List LogiMenu) (hms : (logi_init_one oracle c0).menu = some lms)
    (htype : (logi_init_one oracle c0).type = "menu") :
    (∃ m, m ∈ lms ∧ (logi_init_one oracle c0).value = some (PyVal.str m.text_id))
    ∨ (∃ n : Int, (logi_init_one oracle c0).value = some (PyVal.int n)
        ∧ ∀ m, m ∈ lms → (m.value : Int) ≠ n) := by
  unfold logi_init_one at hms htype ⊢
  by_cases ht0 : c0.type = "menu"
  · rw [if_pos ht0] at hms ⊢
    have hmenu : c0.menu = some lms := hms
    cases hfind : logi_find_by_value (c0.menu.getD []) (logi_byte oracle c0 UVC_GET_CUR) with
    | some m =>
      left
      refine ⟨m, ?_, ?_⟩
      · have hmem := List.mem_of_find?_eq_some hfind
        rw [hmenu] at hmem
        exact hmem
      · rfl
    | none =>
      right
      refine ⟨logi_byte oracle c0 UVC_GET_CUR, ?_, ?_⟩
      · rfl
      · intro m hm hcc
        have hnone := hfind
        unfold logi_find_by_value at hnone
        rw [List.find?_eq_none] at hnone
        have hm2 : m ∈ c0.menu.getD [] := by rw [hmenu]; exact hm
        exact hnone m hm2 (beq_iff_eq.mpr hcc)
  · rw [if_neg ht0] at htype
    exact absurd htype ht0

/-- The declared LED1 mode control (first element of
`logi_declared_ctrls`). -/
def modeDecl : LogiCtrl :=
  { text_id := "logitech_led1_mode", name := "LED1 Mode", type := "menu",
    selector := LOGITECH_PERIPHERAL_LED1_SEL, len := LOGITECH_PERIPHERAL_LED1_LEN,
    offset := LOGITECH_PERIPHERAL_LED1_MODE_OFFSET,
    value := none, default := none, min := none, max := none,
    menu := some [⟨"off", "Off", 0⟩, ⟨"on", "On", 1⟩,
                  ⟨"blink", "Blink", 2⟩, ⟨"auto", "Auto", 3⟩] }

/-- Claim C2 (amended): after discovery, a native menu control's stored
value is a listed entry's textual id or the raw numeric value matched by no
entry (never a matched-but-unreplaced raw value); a Logitech menu control's
stored value likewise; and the Kiyo source, which never reads values back,
leaves every control's value unset. -/
theorem c2_menu_value_text_or_raw (recs : List QCtrlRec) (supported : Bool)
    (oracle : Nat → Nat → List Nat) :
    (∀ c, c ∈ v4l2_get_device_controls recs → ∀ ms, c.menu = some ms →
      menuValueInv ms c.value)
    ∧ (∀ c, c ∈ (logi_init supported oracle).ctrls → c.type = "menu" →
        ∀ lms, c.menu = some lms →
        ((∃ m, m ∈ lms ∧ c.value = some (PyVal.str m.text_id))
          ∨ (∃ n : Int, c.value = some (PyVal.int n)
              ∧ ∀ m, m ∈ lms → (m.value : Int) ≠ n)))
    ∧ (∀ c, c ∈ (kiyo_init supported).ctrls → c.value = none) := by
  refine ⟨?_, ?_, ?_⟩
  · intro c hc ms hms
    unfold v4l2_get_device_controls at hc
    have hc2 := v4l2_reorder_mem _ c hc
    obtain ⟨r, hr, hcr⟩ := List.mem_map.mp hc2
    rw [← hcr] at hms ⊢
    exact v4l2_build_ctrl_menuInv r ms hms
  · intro c hc htype lms hms
    unfold logi_init at hc
    by_cases hs : supported = true
    · rw [if_pos hs] at hc
      obtain ⟨c0, hc0, hcc⟩ := List.mem_map.mp hc
      rw [← hcc] at htype hms ⊢
      exact logi_init_one_inv oracle c0 lms hms htype
    · rw [if_neg hs] at hc
      exact absurd hc (List.not_mem_nil c)
  · intro c hc
    unfold kiyo_init at hc
    by_cases hs : supported = true
    · rw [if_pos hs] at hc
      have hc2 : c ∈ kiyo_default_ctrls := by simpa using hc
      fin_cases hc2 <;> rfl
    · rw [if_neg hs] at hc
      exact absurd hc (List.not_mem_nil c)

/-- A typical text-menu native control record (power line frequency, three
entries, current value 2). -/
def qrecPowerLine : QCtrlRec :=
  { id := 0x980918, qtype := 3, name := "Power Line Frequency",
    minimum := 0, maximum := 2, step := 1, default := 2, flags := 0,
    gctrl := some 2,
    menuq := [(0, ⟨"Disabled", 0⟩), (1, ⟨"50 Hz", 0⟩), (2, ⟨"60 Hz", 0⟩)] }

/-- Claim C2 witness: the invariant instantiated at a native power-line
menu control, at the Logitech LED1 mode control discovered on the device
answering the unmatched byte 4, and at a Kiyo control. -/
theorem c2_menu_value_text_or_raw_witness :
    menuValueInv ((v4l2_build_ctrl qrecPowerLine).menu.getD [])
      ((v4l2_build_ctrl qrecPowerLine).value)
    ∧ ((∃ m, m ∈ [(⟨"off", "Off", 0⟩ : LogiMenu), ⟨"on", "On", 1⟩,
            ⟨"blink", "Blink", 2⟩, ⟨"auto", "Auto", 3⟩]
          ∧ (logi_init_one c2_oracle modeDecl).value = some (PyVal.str m.text_id))
        ∨ (∃ n : Int, (logi_init_one c2_oracle modeDecl).value = some (PyVal.int n)
            ∧ ∀ m, m ∈ [(⟨"off", "Off", 0⟩ : LogiMenu), ⟨"on", "On", 1⟩,
                ⟨"blink", "Blink", 2⟩, ⟨"auto", "Auto", 3⟩] → (m.value : Int) ≠ n))
    ∧ (⟨"kiyo_pro_af_mode", "AF Mode", none,
        [⟨"passive", "Passive", AF_PASSIVE, none⟩,
         ⟨"responsive", "Responsive", AF_RESPONSIVE, none⟩]⟩ : KiyoCtrl).value = none := by
  refine ⟨?_, ?_, ?_⟩
  · exact (c2_menu_value_text_or_raw [qrecPowerLine] false (fun _ _ => [])).1
      (v4l2_build_ctrl qrecPowerLine) (by decide) _ (by rfl)
  · exact (c2_menu_value_text_or_raw [] true c2_oracle).2.1
      (logi_init_one c2_oracle modeDecl) (by decide) rfl _ rfl
  · exact (c2_menu_value_text_or_raw [] true (fun _ _ => [])).2.2 _ (by decide)

-- The reorder pass also preserves length, and every produced control's
-- name and text id come from exactly one enumeration record.

theorem insertAt_length {α : Type} (x : α) :
    ∀ (l : List α) (n : Nat), (insertAt l n x).length = l.length + 1 := by
  intro l
  induction l with
  | nil => intro n; cases n <;> rfl
  | cons y ys ih =>
    intro n
    cases n with
    | zero => rfl
    | succ m =>
      show (insertAt ys m x).length + 1 = ys.length + 1 + 1
      rw [ih m]

theorem eraseIdx_length_lt {α : Type} :
    ∀ (l : List α) (n : Nat), n < l.length → (l.eraseIdx n).length + 1 = l.length := by
  intro l
  induction l with
  | nil => intro n h; exact absurd h (Nat.not_lt_zero n)
  | cons y ys ih =>
    intro n h
    cases n with
    | zero => rfl
    | succ m =>
      show (ys.eraseIdx m).length + 1 + 1 = ys.length + 1
      rw [ih m (Nat.lt_of_succ_lt_succ h)]

theorem reorder_step_length (l : List V4L2Ctrl) (kv : Nat × Nat) :
    (reorder_step l kv).length = l.length := by
  simp only [reorder_step]
  split
  · split
    · split
      · rename_i hget
        have hwi : _ < l.length := (List.get?_eq_some.mp hget).1
        rw [insertAt_length]
        exact eraseIdx_length_lt l _ hwi
      · rfl
    · rfl
  · rfl

theorem v4l2_reorder_length (l : List V4L2Ctrl) :
    (v4l2_reorder l).length = l.length := by
  have h1 : v4l2_reorder l
      = reorder_step (reorder_step l (V4L2_CID_FOCUS_AUTO, V4L2_CID_FOCUS_ABSOLUTE))
          (V4L2_CID_AUTO_WHITE_BALANCE, V4L2_CID_WHITE_BALANCE_TEMPERATURE) := rfl
  rw [h1, reorder_step_length, reorder_step_length]

theorem v4l2_build_ctrl_name (r : QCtrlRec) :
    (v4l2_build_ctrl r).name = r.name ∧ (v4l2_build_ctrl r).text_id = to_text_id r.name := by
  simp only [v4l2_build_ctrl]
  split
  · exact ⟨rfl, rfl⟩
  · exact ⟨rfl, rfl⟩

/-- Claim C7 (amended): textual-id derivation is deterministic — every
control produced by enumeration carries exactly the fold of its record's
display name as text id, and no control of a handled type is dropped (the
reorder pass preserves length), so two records whose names fold to the same
id both survive; the code contains no collision check or data-integrity
flag. -/
theorem c7_text_id_deterministic_nothing_dropped (recs : List QCtrlRec) :
    (v4l2_get_device_controls recs).length
      = (recs.filter (fun r => v4l2_handled_types.contains r.qtype)).length
    ∧ ∀ c, c ∈ v4l2_get_device_controls recs →
        ∃ r, r ∈ recs ∧ c.name = r.name ∧ c.text_id = to_text_id r.name := by
  constructor
  · unfold v4l2_get_device_controls
    rw [v4l2_reorder_length, List.length_map]
  · intro c hc
    unfold v4l2_get_device_controls at hc
    have hc2 := v4l2_reorder_mem _ c hc
    obtain ⟨r, hr, hcr⟩ := List.mem_map.mp hc2
    exact ⟨r, List.mem_of_mem_filter hr,
      by rw [← hcr]; exact (v4l2_build_ctrl_name r).1,
      by rw [← hcr]; exact (v4l2_build_ctrl_name r).2⟩

/-- Claim C7 witness: the two colliding records both survive (length 2) and
the first produced control's identifiers derive from its record. -/
theorem c7_text_id_deterministic_nothing_dropped_witness :
    (v4l2_get_device_controls [qrecFooBar1, qrecFooBar2]).length = 2
    ∧ ∃ r, r ∈ [qrecFooBar1, qrecFooBar2]
        ∧ (v4l2_build_ctrl qrecFooBar1).name = r.name
        ∧ (v4l2_build_ctrl qrecFooBar1).text_id = to_text_id r.name := by
  constructor
  · rw [(c7_text_id_deterministic_nothing_dropped [qrecFooBar1, qrecFooBar2]).1]
    rfl
  · exact (c7_text_id_deterministic_nothing_dropped [qrecFooBar1, qrecFooBar2]).2
      (v4l2_build_ctrl qrecFooBar1) (by decide)
